import Mathlib

/-!
Verification development for the grid-based FPS level generator
(`Pipeline2_Solver.py`, class `LevelGenerator`).

The generator is embedded shallowly:
* the mutable `self.grid` (a height×width array of `CellType`) becomes a total
  function `Int → Int → CellType` updated functionally; all writes in the
  source are bounds-guarded, and the embedding keeps those guards;
* the global `random` stream becomes an explicit list of integers threaded
  through every call in exactly the order the source draws from the stream
  (`random.randint`, `random.choice`, `random.random`); `random.random()` is
  modelled as a draw of an integer in `[0, 1000)` compared against the
  source's literal thresholds scaled by 1000 (the claims quantify over all
  streams, so the granularity of the model is irrelevant to them);
* Python floats are modelled by exact rationals / integer arithmetic; every
  place where this is done carries a comment justifying that the float
  computation of the source agrees with the exact one on the relevant range;
* `//` (Python floor division) is `Int.fdiv`, `%` is `Int.emod`,
  `int(...)` on a nonnegative value is truncation;
* some functions return additional "ghost" data that the Python code only
  exposes through its debug logging: the list of cells of a placed zone
  (local variable `cells` in `_create_zone_with_spec`), the number of
  placement attempts performed, the number of turn-walk iterations
  performed, and the list of connections made by `_connect_areas`
  (mirroring its `connection_count`/debug log).  The ghost data never feeds
  back into the computation.
-/

/-- `CellType` enum, `Pipeline2_Solver.py` lines 16-26. -/
inductive CellType where
  | EMPTY
  | ROOM
  | CORRIDOR
  | SPAWN_T
  | SPAWN_CT
  | BOMBSITE
  | MID_AREA
  | CHOKEPOINT
  | CONNECTOR
  | COVER
deriving DecidableEq

/-- The grid `self.grid`: a list of rows, row `y` holding the cells of that
row left to right, exactly like the source's list of lists. -/
abbrev Grid : Type := List (List CellType)

/-- Read `self.grid[y][x]`.  Every read in the source is guarded by
`0 <= x < width and 0 <= y < height`; out-of-range coordinates answer
`EMPTY` here. -/
def gridGet (g : Grid) (y x : Int) : CellType :=
  if 0 ≤ y ∧ 0 ≤ x then (g.getD y.toNat []).getD x.toNat CellType.EMPTY
  else CellType.EMPTY

/-- Write `self.grid[y][x] = c`.  Every write in the source is inside a
bounds check; out-of-range writes are no-ops here (`List.set` ignores
out-of-range indices). -/
def setCell (g : Grid) (y x : Int) (c : CellType) : Grid :=
  if 0 ≤ y ∧ 0 ≤ x then g.set y.toNat ((g.getD y.toNat []).set x.toNat c)
  else g

/-- The freshly allocated all-`EMPTY` grid of lines 32/41:
`[[EMPTY for _ in range(width)] for _ in range(height)]`. -/
def initialGrid (W H : Int) : Grid :=
  List.replicate H.toNat (List.replicate W.toNat CellType.EMPTY)

/-- `_is_open_cell`, line 581-582. -/
def isOpenCell (c : CellType) : Bool :=
  [CellType.CORRIDOR, CellType.BOMBSITE, CellType.MID_AREA, CellType.SPAWN_T,
   CellType.SPAWN_CT, CellType.CONNECTOR].contains c

/-- The shared pseudo-random stream: the seed determines the whole stream,
so the stream itself is the model of a seeded `random` module. -/
def Rng : Type := List Int

/-- `random.randint(lo, hi)`: consumes one stream value, result in
`[lo, hi]` (for `lo ≤ hi`; a stream value already in the interval is
returned unchanged). -/
def randint (lo hi : Int) (r : Rng) : Int × Rng :=
  (lo + (r.headD 0 - lo).emod (hi - lo + 1), r.tail)

/-- `random.choice(l)`: consumes one stream value selecting an index. -/
def randChoice {α : Type} (l : List α) (dflt : α) (r : Rng) : α × Rng :=
  (l.getD ((r.headD 0).emod (l.length : Int)).toNat dflt, r.tail)

/-- `random.random()` scaled to thousandths: one stream value in `[0,1000)`;
a comparison `random.random() < p` of the source becomes `· < p * 1000`. -/
def randUnit (r : Rng) : Int × Rng :=
  ((r.headD 0).emod 1000, r.tail)

/-- Is `pre` a character-wise prefix of `t`? (our executable model of
`str.startswith`). -/
def listPrefixEq : List Char → List Char → Bool
  | [], _ => true
  | _ :: _, [] => false
  | p :: ps, t :: ts => (p == t) && listPrefixEq ps ts

/-- `s.startswith(pre)`. -/
def strStarts (s pre : String) : Bool := listPrefixEq pre.data s.data

/-- ASCII lowercase of one character (the style strings of the source are
ASCII; `str.lower` agrees with this there). -/
def lowerChar (c : Char) : Char :=
  if 'A' ≤ c ∧ c ≤ 'Z' then Char.ofNat (c.toNat + 32) else c

/-- Does the lowercased text start with "lane"? -/
def laneAt : List Char → Bool
  | l :: a :: n :: e :: _ =>
      (lowerChar l == 'l') && (lowerChar a == 'a') && (lowerChar n == 'n') && (lowerChar e == 'e')
  | _ => false

/-- `"lane" in style.lower()` (line 352): substring search, lowercasing. -/
def containsLane : List Char → Bool
  | [] => false
  | c :: cs => laneAt (c :: cs) || containsLane cs

/-- Characters before the first `'-'`: `style.split("-")[0]`. -/
def takeUntilDash : List Char → List Char
  | [] => []
  | c :: cs => if c = '-' then [] else c :: takeUntilDash cs

/-- Digit-string to number, accumulator style. -/
def digitsToNat : List Char → Nat → Option Nat
  | [], acc => some acc
  | c :: cs, acc =>
      if '0' ≤ c ∧ c ≤ '9' then digitsToNat cs (acc * 10 + (c.toNat - 48)) else none

/-- `int(s)` on a string: optional sign then digits (the success cases of
Python's parse that matter for lane styles; any failure raises in Python and
is swallowed by the `except: pass` of line 354, modelled as `none`). -/
def strToIntOpt (cs : List Char) : Option Int :=
  match cs with
  | [] => none
  | '-' :: rest => (digitsToNat rest 0).bind (fun n => if rest = [] then none else some (-(n : Int)))
  | '+' :: rest => (digitsToNat rest 0).bind (fun n => if rest = [] then none else some (n : Int))
  | _ => (digitsToNat cs 0).map (fun n => (n : Int))

/-- Lane-count parsing, lines 351-355: default 3; if the lowercased style
contains "lane", try to parse the integer before the first "-", keeping 3 on
failure. -/
def parseNumLanes (style : String) : Int :=
  if containsLane style.data then
    match strToIntOpt (takeUntilDash style.data) with
    | some n => n
    | none => 3
  else 3

/-- Truncated product `int(q * n)` for a rational `q` and integer `n`:
the exact value `q*n = (q.num * n) / q.den` truncated toward zero.  For the
normalized locations and grid sizes that occur, the source's float product
`fx * width` differs from the exact one by well under the distance to the
nearest integer except on a measure-zero boundary irrelevant to every claim
proved here. -/
def truncMul (q : ℚ) (n : Int) : Int := (q.num * n).tdiv (q.den : Int)

/-- A location value of the input JSON: dict `{"x":..,"y":..}` (possibly
with missing keys, line 155's `.get` default 0.5), list `[x, y]`, legacy
string, or any other (invalid) value. -/
inductive Location where
  | dict (x y : Option ℚ)
  | list (x y : ℚ)
  | str (s : String)
  | invalid
deriving DecidableEq

/-- The legacy string table of `_parse_location`, lines 170-180. -/
def namedLocation (s : String) : ℚ × ℚ :=
  if s = "top-left" then (mkRat 2 10, mkRat 2 10)
  else if s = "top-right" then (mkRat 8 10, mkRat 2 10)
  else if s = "bottom-left" then (mkRat 2 10, mkRat 8 10)
  else if s = "bottom-right" then (mkRat 8 10, mkRat 8 10)
  else if s = "center" then (mkRat 5 10, mkRat 5 10)
  else if s = "top" then (mkRat 5 10, mkRat 2 10)
  else if s = "bottom" then (mkRat 5 10, mkRat 8 10)
  else if s = "left" then (mkRat 2 10, mkRat 5 10)
  else if s = "right" then (mkRat 8 10, mkRat 5 10)
  else (mkRat 5 10, mkRat 5 10)

/-- `_parse_location`, lines 145-188. -/
def parseLocation (W H : Int) (loc : Location) : Int × Int :=
  match loc with
  | Location.dict ox oy =>
      let fx := max 0 (min 1 (ox.getD (mkRat 1 2)))
      let fy := max 0 (min 1 (oy.getD (mkRat 1 2)))
      (truncMul fx W, truncMul fy H)
  | Location.list lx ly =>
      let fx := max 0 (min 1 lx)
      let fy := max 0 (min 1 ly)
      (truncMul fx W, truncMul fy H)
  | Location.str s =>
      let p := namedLocation s
      (truncMul p.1 W, truncMul p.2 H)
  | Location.invalid => (W.fdiv 2, H.fdiv 2)

/-- `size_map.get(sizeName, 6)` where `size_map = {"small":4,"medium":6,"large":9}`
(line 44 together with the `.get(..., 6)` at the call sites). -/
def sizeMapGet (s : String) : Int :=
  if s = "small" then 4 else if s = "medium" then 6 else if s = "large" then 9 else 6

/-- A `w × h` block of cells anchored at `(x, y)`, row-major like the
source's nested `for dy ... for dx ...` appends. -/
def cellBlock (x y : Int) (w h : Nat) : List (Int × Int) :=
  (List.range h).flatMap (fun dy => (List.range w).map (fun dx => (x + (dx : Int), y + (dy : Int))))

/-- `square` branch of `_get_shape_cells`, lines 266-269. -/
def squareCells (x y size : Int) : List (Int × Int) :=
  cellBlock x y size.toNat size.toNat

/-- `L_shape` branch, lines 278-284: a tall arm then a wide arm. -/
def lCells (x y size : Int) : List (Int × Int) :=
  cellBlock x y (size.fdiv 2 + 1).toNat size.toNat ++
  (List.range size.toNat).flatMap (fun dx =>
    (List.range (size.fdiv 2 + 1).toNat).map (fun dy => (x + (dx : Int), y + (dy : Int))))

/-- `T_shape` branch, lines 285-292: top bar plus stem. -/
def tCells (x y size : Int) : List (Int × Int) :=
  (List.range size.toNat).flatMap (fun dx =>
    (List.range (size.fdiv 3 + 1).toNat).map (fun dy => (x + (dx : Int), y + (dy : Int)))) ++
  (List.range (size - size.fdiv 3).toNat).flatMap (fun i =>
    (List.range (size.fdiv 2 + 1).toNat).map (fun j =>
      (x + size.fdiv 3 + (j : Int), y + size.fdiv 3 + (i : Int))))

/-- `plus` branch, lines 293-300: horizontal band then vertical band. -/
def plusCells (x y size : Int) : List (Int × Int) :=
  (List.range size.toNat).flatMap (fun dx =>
    ([size.fdiv 2 - 1, size.fdiv 2, size.fdiv 2 + 1].map (fun dy => (x + (dx : Int), y + dy)))) ++
  (List.range size.toNat).flatMap (fun dy =>
    ([size.fdiv 2 - 1, size.fdiv 2, size.fdiv 2 + 1].map (fun dx => (x + dx, y + (dy : Int)))))

/-- Set-insert into the cell list (Python `set.add`; list order is
irrelevant downstream, the source's `list(set(...))` discards it). -/
def insertCell (cs : List (Int × Int)) (c : Int × Int) : List (Int × Int) :=
  if c ∈ cs then cs else cs ++ [c]

/-- Python `set.discard`. -/
def removeCell (cs : List (Int × Int)) (c : Int × Int) : List (Int × Int) :=
  cs.filter (fun d => d ≠ c)

/-- The random add/remove loop of the `organic` branch, lines 306-316:
each round draws `mod_x`, `mod_y`, a block size from `[2,2,3]`, and a coin;
the block is unioned in on heads, discarded on tails. -/
def organicAdjust (x y size : Int) : Nat → List (Int × Int) → Rng → List (Int × Int) × Rng
  | 0, cells, r => (cells, r)
  | n + 1, cells, r =>
      let mx := randint (-2) size r
      let my := randint (-2) size mx.2
      let bs := randChoice ([2, 2, 3] : List Int) 2 my.2
      let co := randUnit bs.2
      let modX := x + mx.1
      let modY := y + my.1
      let cells :=
        if co.1 < 500 then
          (List.range bs.1.toNat).foldl (fun cs dy =>
            (List.range bs.1.toNat).foldl (fun cs dx =>
              insertCell cs (modX + (dx : Int), modY + (dy : Int))) cs) cells
        else
          (List.range bs.1.toNat).foldl (fun cs dy =>
            (List.range bs.1.toNat).foldl (fun cs dx =>
              removeCell cs (modX + (dx : Int), modY + (dy : Int))) cs) cells
      organicAdjust x y size n cells co.2

/-- `_get_shape_cells`, lines 264-318.  Note the `rectangle` and `organic`
branches consume randomness, so two calls with the same arguments but
different stream positions give different cells — this is exactly what the
source does between its check and its placement.  The trailing
`list(set(cells))` is `eraseDups` (order irrelevant downstream). -/
def getShapeCells (x y size : Int) (shape : String) (r : Rng) : List (Int × Int) × Rng :=
  if shape = "square" then ((squareCells x y size).eraseDups, r)
  else if shape = "rectangle" then
    let cb := randChoice [true, false] true r
    let er := randint 1 3 cb.2
    let w := if cb.1 then size + er.1 else max 3 (size - 1)
    let h := if cb.1 then max 3 (size - 1) else size + er.1
    ((cellBlock x y w.toNat h.toNat).eraseDups, er.2)
  else if shape = "L_shape" then ((lCells x y size).eraseDups, r)
  else if shape = "T_shape" then ((tCells x y size).eraseDups, r)
  else if shape = "plus" then ((plusCells x y size).eraseDups, r)
  else if shape = "organic" then
    let nb := randint 2 5 r
    let res := organicAdjust x y size nb.1.toNat (squareCells x y size).eraseDups nb.2
    (res.1.eraseDups, res.2)
  else ([], r)

/-- `_can_place_shaped_zone`, lines 320-329: every in-bounds cell of the
(freshly drawn) shape's 3×3 neighborhoods must be `EMPTY`. -/
def canPlaceShapedZone (W H : Int) (g : Grid) (x y size : Int) (shape : String) (r : Rng) :
    Bool × Rng :=
  let sc := getShapeCells x y size shape r
  (sc.1.all (fun c =>
    ([-1, 0, 1] : List Int).all (fun dy =>
      ([-1, 0, 1] : List Int).all (fun dx =>
        let nx := c.1 + dx
        let ny := c.2 + dy
        (!(decide (0 ≤ nx ∧ nx < W ∧ 0 ≤ ny ∧ ny < H))) ||
          decide (gridGet g ny nx = CellType.EMPTY)))), sc.2)

/-- `_place_shaped_zone`, lines 331-336: draw the shape cells again (a
second, independent random draw!) and stamp the in-bounds ones
unconditionally with `cell_type`; return the cell list. -/
def placeShapedZone (W H : Int) (g : Grid) (x y size : Int) (shape : String)
    (ct : CellType) (r : Rng) : Grid × List (Int × Int) × Rng :=
  let sc := getShapeCells x y size shape r
  (sc.1.foldl (fun g c =>
      if 0 ≤ c.1 ∧ c.1 < W ∧ 0 ≤ c.2 ∧ c.2 < H then setCell g c.2 c.1 ct else g) g,
   sc.1, sc.2)

/-- A placed zone: the dict of line 255-259 (`x`,`y`,`w`,`h`,`name`,`type`,
`shape`) plus the ghost field `cells`, the local cell list the bounding box
was computed from. -/
structure Zone where
  x : Int
  y : Int
  w : Int
  h : Int
  name : String
  type : CellType
  shape : String
  cells : List (Int × Int)
deriving DecidableEq

/-- The 50-attempt loop of `_create_zone_with_spec`, lines 238-262.
`remaining` counts down from 50, `attempt` up from 0 (so the offset range
switch `attempt > 0` matches the source).  The last component is the ghost
count of attempts performed. -/
def attemptLoop (W H : Int) (name : String) (size tx ty : Int) (shape : String)
    (ct : CellType) : Nat → Nat → Grid → Rng → Option Zone × Grid × Rng × Nat
  | 0, _, g, r => (none, g, r, 0)
  | remaining + 1, attempt, g, r =>
      let ox := if attempt > 0 then randint (-5) 5 r else randint (-2) 2 r
      let oy := if attempt > 0 then randint (-5) 5 ox.2 else randint (-2) 2 ox.2
      let x := max 2 (min (W - size - 2) (tx + ox.1 - size.fdiv 2))
      let y := max 2 (min (H - size - 2) (ty + oy.1 - size.fdiv 2))
      let cp := canPlaceShapedZone W H g x y size shape oy.2
      if cp.1 then
        let pl := placeShapedZone W H g x y size shape ct cp.2
        if pl.2.1 ≠ [] then
          let cells := pl.2.1
          let minX := cells.foldl (fun m c => min m c.1) (cells.headD (0, 0)).1
          let maxX := cells.foldl (fun m c => max m c.1) (cells.headD (0, 0)).1
          let minY := cells.foldl (fun m c => min m c.2) (cells.headD (0, 0)).2
          let maxY := cells.foldl (fun m c => max m c.2) (cells.headD (0, 0)).2
          (some { x := minX, y := minY, w := maxX - minX + 1, h := maxY - minY + 1,
                  name := name, type := ct, shape := shape, cells := cells },
           pl.1, pl.2.2, 1)
        else
          let res := attemptLoop W H name size tx ty shape ct remaining (attempt + 1) pl.1 pl.2.2
          (res.1, res.2.1, res.2.2.1, res.2.2.2 + 1)
      else
        let res := attemptLoop W H name size tx ty shape ct remaining (attempt + 1) g cp.2
        (res.1, res.2.1, res.2.2.1, res.2.2.2 + 1)

/-- `_create_zone_with_spec`, lines 190-262 (target parsing, size jitter,
edge-preference adjustment, shape selection, then the attempt loop). -/
def createZoneWithSpec (W H : Int) (g : Grid) (name : String) (size0 : Int)
    (location : Option Location) (preference : String) (ct : CellType)
    (specifiedShape : Option String) (r : Rng) : Option Zone × Grid × Rng × Nat :=
  let t0 := match location with
    | some loc => parseLocation W H loc
    | none => (W.fdiv 2, H.fdiv 2)
  let sv := randint (-1) 1 r
  let size := max 3 (size0 + sv.1)
  let tx :=
    if preference = "edge" then
      if ((t0.1 : ℚ) / (W : ℚ)) < mkRat 3 10 then size.fdiv 2 + 2
      else if ((t0.1 : ℚ) / (W : ℚ)) > 1 - mkRat 3 10 then W - size.fdiv 2 - 2
      else t0.1
    else t0.1
  let ty :=
    if preference = "edge" then
      if ((t0.2 : ℚ) / (H : ℚ)) < mkRat 3 10 then size.fdiv 2 + 2
      else if ((t0.2 : ℚ) / (H : ℚ)) > 1 - mkRat 3 10 then H - size.fdiv 2 - 2
      else t0.2
    else t0.2
  let shapes := ["square", "rectangle", "L_shape", "T_shape", "plus", "organic"]
  let sh := match specifiedShape with
    | some s => if s ∈ shapes then (s, sv.2) else randChoice shapes "square" sv.2
    | none => randChoice shapes "square" sv.2
  attemptLoop W H name size tx ty sh.1 ct 50 0 g sh.2

/-- Guarded corridor stamp: the write pattern
`if 0 <= ny < H and 0 <= nx < W and grid[ny][nx] == EMPTY: grid[ny][nx] = CORRIDOR`
used by every drawing loop of the router. -/
def stampIfEmpty (W H : Int) (g : Grid) (y x : Int) : Grid :=
  if 0 ≤ y ∧ y < H ∧ 0 ≤ x ∧ x < W ∧ gridGet g y x = CellType.EMPTY then
    setCell g y x CellType.CORRIDOR
  else g

/-- One vertical span of width `effw` stamped at column `xcol`, centered on
`ycenter` (the `for w in range(eff_w): ny = current_y + w - eff_w // 2` loops). -/
def stampColumn (W H : Int) (g : Grid) (xcol ycenter effw : Int) : Grid :=
  (List.range effw.toNat).foldl (fun g w =>
    stampIfEmpty W H g (ycenter + (w : Int) - effw.fdiv 2) xcol) g

/-- One horizontal span of width `effw` stamped at row `yrow`, centered on
`xcenter`. -/
def stampRow (W H : Int) (g : Grid) (yrow xcenter effw : Int) : Grid :=
  (List.range effw.toNat).foldl (fun g w =>
    stampIfEmpty W H g yrow (xcenter + (w : Int) - effw.fdiv 2)) g

/-- `_get_safe_width`, lines 554-567: count open cells in the 7-cell
cross-section and narrow the width near congested areas. -/
def getSafeWidth (W H : Int) (g : Grid) (x y desired : Int) (isHoriz : Bool) : Int :=
  let openCount := (List.range 7).foldl (fun c i =>
    let d : Int := (i : Int) - 3
    if isHoriz then
      if 0 ≤ y + d ∧ y + d < H ∧ 0 ≤ x ∧ x < W ∧ isOpenCell (gridGet g (y + d) x) then c + 1
      else c
    else
      if 0 ≤ y ∧ y < H ∧ 0 ≤ x + d ∧ x + d < W ∧ isOpenCell (gridGet g y (x + d)) then c + 1
      else c)
    (0 : Int)
  if openCount > 4 then 1
  else if openCount > 2 then max 1 (desired - 1)
  else desired

/-- Horizontal walk toward `tx`: steps one cell toward `tx`, stamping a
vertical span of safe width at each new column; stops at `tx` or when the
fuel runs out.  With fuel `min(segment_length, |tx - cx|)` this is the
bounded advance of lines 495-503 (and 529-536 for the detour); with fuel
`|tx - cx|` it is the finishing run of lines 539-545. -/
def hAdvance (W H tx cy width : Int) : Nat → Int → Grid → Int × Grid
  | 0, cx, g => (cx, g)
  | fuel + 1, cx, g =>
      if cx = tx then (cx, g)
      else
        hAdvance W H tx cy width fuel (cx + (if cx < tx then 1 else -1))
          (stampColumn W H g (cx + (if cx < tx then 1 else -1)) cy
            (getSafeWidth W H g (cx + (if cx < tx then 1 else -1)) cy width true))

/-- Vertical walk toward `dy` (detour walk of lines 507-514, bounded advance
of lines 517-525, finishing run of lines 546-552), stamping a horizontal
span at each new row. -/
def vWalk (W H cxcol width dy : Int) : Nat → Int → Grid → Int × Grid
  | 0, cy, g => (cy, g)
  | fuel + 1, cy, g =>
      if cy = dy then (cy, g)
      else
        vWalk W H cxcol width dy fuel (cy + (if cy < dy then 1 else -1))
          (stampRow W H g (cy + (if cy < dy then 1 else -1)) cxcol
            (getSafeWidth W H g cxcol (cy + (if cy < dy then 1 else -1)) width false))

/-- The horizontal-dominant iteration body of the 20-round turn loop of
`_draw_path_with_turns` (lines 492-515): draw the segment length, advance
toward `tx` by at most that many cells, then, if still more than one cell
away, detour vertically and maybe flip the detour direction.
Returns `(cx, cy, goingRight, grid, rng)`. -/
def turnsIterH (W H tx width maxSeg detour : Int)
    (cx cy : Int) (gr : Bool) (g : Grid) (r : Rng) : Int × Int × Bool × Grid × Rng :=
  let sl := randint (-2) 2 r
  let segLen := maxSeg + sl.1
  let ha := hAdvance W H tx cy width (min segLen ((tx - cx).natAbs : Int)).toNat cx g
  if (((ha.1 - tx).natAbs : Int) > 1) then
    let d1 := randint (-1) 1 sl.2
    let detourY := max 1 (min (H - 2) (cy + (if gr then detour else -detour) + d1.1))
    let vw := vWalk W H ha.1 width detourY ((detourY - cy).natAbs) cy ha.2
    let u := randUnit d1.2
    (ha.1, vw.1, (if u.1 > 200 then !gr else gr), vw.2, u.2)
  else (ha.1, cy, gr, ha.2, sl.2)

/-- The vertical-dominant iteration body (lines 516-537), mirror of
`turnsIterH`. -/
def turnsIterV (W H ty width maxSeg detour : Int)
    (cx cy : Int) (gr : Bool) (g : Grid) (r : Rng) : Int × Int × Bool × Grid × Rng :=
  let sl := randint (-2) 2 r
  let segLen := maxSeg + sl.1
  let va := vWalk W H cx width ty (min segLen ((ty - cy).natAbs : Int)).toNat cy g
  if (((va.1 - ty).natAbs : Int) > 1) then
    let d1 := randint (-1) 1 sl.2
    let detourX := max 1 (min (W - 2) (cx + (if gr then detour else -detour) + d1.1))
    let hw := hAdvance W H detourX va.1 width ((detourX - cx).natAbs) cx va.2
    let u := randUnit d1.2
    (hw.1, va.1, (if u.1 > 200 then !gr else gr), hw.2, u.2)
  else (cx, va.1, gr, va.2, sl.2)

/-- One iteration of the turn loop: dispatch on the dominant axis. -/
def turnsIter (W H tx ty width maxSeg detour : Int) (isH : Bool)
    (cx cy : Int) (gr : Bool) (g : Grid) (r : Rng) : Int × Int × Bool × Grid × Rng :=
  if isH then turnsIterH W H tx width maxSeg detour cx cy gr g r
  else turnsIterV W H ty width maxSeg detour cx cy gr g r

/-- The `for _ in range(20)` loop of `_draw_path_with_turns` with its break
condition; the final `Nat` is the ghost count of iterations performed. -/
def turnsLoop (W H tx ty width maxSeg detour : Int) (isH : Bool) :
    Nat → Int → Int → Bool → Grid → Rng → Int × Int × Bool × Grid × Rng × Nat
  | 0, cx, cy, gr, g, r => (cx, cy, gr, g, r, 0)
  | fuel + 1, cx, cy, gr, g, r =>
      if (cx - tx).natAbs ≤ 1 ∧ (cy - ty).natAbs ≤ 1 then (cx, cy, gr, g, r, 0)
      else
        let it := turnsIter W H tx ty width maxSeg detour isH cx cy gr g r
        let res := turnsLoop W H tx ty width maxSeg detour isH fuel
          it.1 it.2.1 it.2.2.1 it.2.2.2.1 it.2.2.2.2
        (res.1, res.2.1, res.2.2.1, res.2.2.2.1, res.2.2.2.2.1, res.2.2.2.2.2 + 1)

/-- `_draw_path_with_turns`, lines 482-552: pick dominant axis, detour
amount and initial direction, run the bounded 20-iteration walk, then finish
with a direct horizontal and a direct vertical run to the exact target.
Returns grid, stream and the ghost iteration count of the bounded walk. -/
def drawPathWithTurns (W H : Int) (g : Grid) (x1 y1 x2 y2 width maxSeg : Int) (r : Rng) :
    Grid × Rng × Nat :=
  let isH := (x2 - x1).natAbs > (y2 - y1).natAbs
  let da := randint (-1) 2 r
  let detour := max 2 (maxSeg.fdiv 3 + da.1)
  let gr := randChoice [true, false] true da.2
  let lp := turnsLoop W H x2 y2 width maxSeg detour isH 20 x1 y1 gr.1 g gr.2
  let fh := hAdvance W H x2 lp.2.1 width ((x2 - lp.1).natAbs) lp.1 lp.2.2.2.1
  let fv := vWalk W H fh.1 width y2 ((y2 - lp.2.1).natAbs) lp.2.1 fh.2
  (fv.2, lp.2.2.2.2.1, lp.2.2.2.2.2)

/-- `_draw_segment`, lines 569-579: a straight horizontal stroke along row
`y1` from `min x` to `max x`, then a straight vertical stroke along column
`x2`, both of the given width, only stamping empty cells. -/
def drawSegment (W H : Int) (g : Grid) (x1 y1 x2 y2 width : Int) : Grid :=
  let g := (List.range ((max x1 x2) - (min x1 x2) + 1).toNat).foldl (fun g i =>
    (List.range width.toNat).foldl (fun g w =>
      stampIfEmpty W H g (y1 + (w : Int) - width.fdiv 2) (min x1 x2 + (i : Int))) g) g
  (List.range ((max y1 y2) - (min y1 y2) + 1).toNat).foldl (fun g i =>
    (List.range width.toNat).foldl (fun g w =>
      stampIfEmpty W H g (min y1 y2 + (i : Int)) (x2 + (w : Int) - width.fdiv 2)) g) g

/-- The corridor-width variation of `_create_path_with_corners`,
lines 471-473, as a function of the path length, the base width and the
`random.randint(-1, 1)` draw `wr`. -/
def variedWidth (pathLength width wr : Int) : Int :=
  if pathLength > 15 then max 2 (width + wr)
  else if pathLength > 8 then max (if width = 1 then 2 else 1) (width + wr)
  else max 1 (width + wr)

/-- `_create_path_with_corners`, lines 462-480: jittered clamped endpoints
at the zone centers, width variation by path length, then either one direct
two-segment stroke (sightline control off, `max_segment_length >= 999`) or
the bounded turn walk.  The ghost `Nat` is the turn-walk iteration count
(0 for the direct stroke). -/
def createPathWithCorners (W H : Int) (g : Grid) (a1 a2 : Zone)
    (width maxSegLen : Int) (r : Rng) : Grid × Rng × Nat :=
  let j1 := randint (-1) 1 r
  let x1 := max 1 (min (W - 2) (a1.x + a1.w.fdiv 2 + j1.1))
  let j2 := randint (-1) 1 j1.2
  let y1 := max 1 (min (H - 2) (a1.y + a1.h.fdiv 2 + j2.1))
  let j3 := randint (-1) 1 j2.2
  let x2 := max 1 (min (W - 2) (a2.x + a2.w.fdiv 2 + j3.1))
  let j4 := randint (-1) 1 j3.2
  let y2 := max 1 (min (H - 2) (a2.y + a2.h.fdiv 2 + j4.1))
  let pathLength := ((x2 - x1).natAbs : Int) + ((y2 - y1).natAbs : Int)
  let wr := randint (-1) 1 j4.2
  let vw := variedWidth pathLength width wr.1
  if maxSegLen ≥ 999 then (drawSegment W H g x1 y1 x2 y2 vw, wr.2, 0)
  else drawPathWithTurns W H g x1 y1 x2 y2 vw maxSegLen wr.2

/-- The zone table `self.areas`: name-keyed, insertion ordered. -/
abbrev AreaTable : Type := List (String × Zone)

/-- `self.areas.get(k)`. -/
def getArea (t : AreaTable) (k : String) : Option Zone :=
  (t.find? (fun p => p.1 == k)).map (fun p => p.2)

/-- `self.areas[k] = z`: dict upsert (replace in place, else append). -/
def setArea (t : AreaTable) (k : String) (z : Zone) : AreaTable :=
  if t.any (fun p => p.1 == k) then
    t.map (fun p => if p.1 == k then (k, z) else p)
  else t ++ [(k, z)]

/-- Manhattan distance between bounding-box centers, as used by
`_find_closest_area` / `_find_n_closest_areas` (lines 449-460). -/
def areaDist (a b : Zone) : Int :=
  ((a.x + a.w.fdiv 2 - (b.x + b.w.fdiv 2)).natAbs : Int) +
  ((a.y + a.h.fdiv 2 - (b.y + b.h.fdiv 2)).natAbs : Int)

/-- `_find_closest_area`, lines 449-453: first minimum (Python `min`). -/
def findClosestArea (fromA : Zone) (targets : List Zone) : Option Zone :=
  match targets with
  | [] => none
  | t :: ts => some (ts.foldl (fun best a =>
      if areaDist fromA a < areaDist fromA best then a else best) t)

/-- Stable insertion into an ascending-by-key list (a later element with an
equal key goes after the earlier one), so the fold below is Python's stable
ascending sort. -/
def sortedInsert (p : Int × Zone) : List (Int × Zone) → List (Int × Zone)
  | [] => [p]
  | q :: qs => if q.1 ≤ p.1 then q :: sortedInsert p qs else p :: q :: qs

/-- `_find_n_closest_areas`, lines 455-460: sort by center distance
(stable), take `n`. -/
def findNClosestAreas (fromA : Zone) (targets : List Zone) (n : Nat) : List Zone :=
  match targets with
  | [] => []
  | _ =>
      (((targets.map (fun a => (areaDist fromA a, a))).foldl
          (fun acc p => sortedInsert p acc) []).take n).map (fun p => p.2)

/-- Ghost list of the connections made by `_connect_areas` (one entry per
`_create_path_with_corners` call, in call order — the data behind the
source's `connection_count` and per-connection debug log). -/
abbrev Edges : Type := List (Zone × Zone)

/-- `_connect_mid_network`, lines 437-447. -/
def connectMidNetwork (W H : Int) (g : Grid) (mids : List Zone)
    (width maxSeg : Int) (r : Rng) : Grid × Rng × Edges :=
  if mids.length ≤ 1 then (g, r, []) else
  mids.enum.foldl (fun (st : Grid × Rng × Edges) mi =>
    let others := mids.enum.filterMap (fun mj => if mj.1 ≠ mi.1 then some mj.2 else none)
    (findNClosestAreas mi.2 others (min 2 others.length)).foldl (fun st closeMid =>
      if mids.indexOf mi.2 < mids.indexOf closeMid then
        let p := createPathWithCorners W H st.1 mi.2 closeMid width maxSeg st.2.1
        (p.1, p.2.1, st.2.2 ++ [(mi.2, closeMid)])
      else st) st) (g, r, [])

/-- The `num_lanes == 2` branch of `_connect_areas`, lines 363-371. -/
def connect2Lane (W H : Int) (t ct : Zone) (sites : List Zone)
    (cw ms : Int) (st : Grid × Rng × Edges) : Grid × Rng × Edges :=
  sites.foldl (fun st site =>
    let p1 := createPathWithCorners W H st.1 t site cw ms st.2.1
    let p2 := createPathWithCorners W H p1.1 site ct cw ms p1.2.1
    (p2.1, p2.2.1, st.2.2 ++ [(t, site), (site, ct)])) st

/-- One site of the 3-lane spawn connections (lines 375-380): T spawn to
site, then CT spawn to site. -/
def c3PairStep (W H cw ms : Int) (t ct : Zone) (st : Grid × Rng × Edges)
    (site : Zone) : Grid × Rng × Edges :=
  let p1 := createPathWithCorners W H st.1 t site cw ms st.2.1
  let p2 := createPathWithCorners W H p1.1 ct site cw ms p1.2.1
  (p2.1, p2.2.1, st.2.2 ++ [(t, site), (ct, site)])

/-- The spawn-to-site connections of the `num_lanes == 3` branch,
lines 373-380: only made when BOTH spawns are present. -/
def c3SpawnSites (W H : Int) (tq ctq : Option Zone) (sites : List Zone)
    (cw ms : Int) (st : Grid × Rng × Edges) : Grid × Rng × Edges :=
  match tq, ctq with
  | some t, some ct => sites.foldl (c3PairStep W H cw ms t ct) st
  | _, _ => st

/-- Connect a present spawn to its closest mid (lines 382-391). -/
def spawnClosestMid (W H : Int) (sq : Option Zone) (mids : List Zone)
    (cw ms : Int) (st : Grid × Rng × Edges) : Grid × Rng × Edges :=
  match sq with
  | some t =>
      match findClosestArea t mids with
      | some c =>
          let p := createPathWithCorners W H st.1 t c cw ms st.2.1
          (p.1, p.2.1, st.2.2 ++ [(t, c)])
      | none => st
  | none => st

/-- Connect every site to its (up to) 2 closest mids (lines 392-397 and
428-433). -/
def siteMidsFold (W H : Int) (sites mids : List Zone) (cw ms : Int)
    (st : Grid × Rng × Edges) : Grid × Rng × Edges :=
  sites.foldl (fun st site =>
    (findNClosestAreas site mids (min 2 mids.length)).foldl (fun st mid =>
      let p := createPathWithCorners W H st.1 site mid cw ms st.2.1
      (p.1, p.2.1, st.2.2 ++ [(site, mid)])) st) st

/-- The random extra site-to-site connection (lines 398-401); the draw is
only made when at least two sites exist (Python short-circuit `and`). -/
def c3Extra (W H : Int) (sites : List Zone) (cw ms : Int)
    (st : Grid × Rng × Edges) : Grid × Rng × Edges :=
  if 2 ≤ sites.length then
    let u := randUnit st.2.1
    if u.1 < 300 then
      match sites with
      | s0 :: s1 :: _ =>
          let p := createPathWithCorners W H st.1 s0 s1 cw ms u.2
          (p.1, p.2.1, st.2.2 ++ [(s0, s1)])
      | _ => (st.1, u.2, st.2.2)
    else (st.1, u.2, st.2.2)
  else st

/-- The `num_lanes == 3` branch of `_connect_areas`, lines 372-401. -/
def connect3Lane (W H : Int) (tq ctq : Option Zone) (sites mids : List Zone)
    (cw ms : Int) (st : Grid × Rng × Edges) : Grid × Rng × Edges :=
  let st := c3SpawnSites W H tq ctq sites cw ms st
  let st := if mids ≠ [] then
      siteMidsFold W H sites mids cw ms
        (spawnClosestMid W H ctq mids cw ms (spawnClosestMid W H tq mids cw ms st))
    else st
  c3Extra W H sites cw ms st

/-- One spawn block of the `num_lanes >= 4` branch (lines 403-412 for the
T spawn, 413-422 for the CT spawn, which are mirror images). -/
def c4SpawnBlock (W H : Int) (sq : Option Zone) (sites mids : List Zone)
    (cw ms : Int) (st : Grid × Rng × Edges) : Grid × Rng × Edges :=
  match sq with
  | some t =>
      if mids ≠ [] then
        (findNClosestAreas t mids (min 2 mids.length)).foldl (fun st mid =>
          let p := createPathWithCorners W H st.1 t mid cw ms st.2.1
          (p.1, p.2.1, st.2.2 ++ [(t, mid)]))
          (sites.foldl (fun st site =>
            let p := createPathWithCorners W H st.1 t site cw ms st.2.1
            (p.1, p.2.1, st.2.2 ++ [(t, site)])) st)
      else
        sites.foldl (fun st site =>
          let p := createPathWithCorners W H st.1 t site cw ms st.2.1
          (p.1, p.2.1, st.2.2 ++ [(t, site)])) st
  | none => st

/-- All site-to-site pairs (lines 423-427). -/
def c4SitePairs (W H : Int) (sites : List Zone) (cw ms : Int)
    (st : Grid × Rng × Edges) : Grid × Rng × Edges :=
  sites.enum.foldl (fun st si =>
    sites.enum.foldl (fun st sj =>
      if si.1 < sj.1 then
        let p := createPathWithCorners W H st.1 si.2 sj.2 cw ms st.2.1
        (p.1, p.2.1, st.2.2 ++ [(si.2, sj.2)])
      else st) st) st

/-- The `num_lanes >= 4` branch of `_connect_areas`, lines 402-433. -/
def connect4Lane (W H : Int) (tq ctq : Option Zone) (sites mids : List Zone)
    (cw ms : Int) (st : Grid × Rng × Edges) : Grid × Rng × Edges :=
  let st := c4SpawnBlock W H tq sites mids cw ms st
  let st := c4SpawnBlock W H ctq sites mids cw ms st
  let st := c4SitePairs W H sites cw ms st
  if mids ≠ [] then siteMidsFold W H sites mids cw ms st else st

/-- Connectivity parameters (`level_spec["connectivity"]` with its `.get`
defaults). -/
structure Connectivity where
  style : Option String
  max_chokepoint_width : Option Int
deriving DecidableEq

/-- Sightline-control parameters. -/
structure SightlineControl where
  enabled : Bool
  max_consecutive_open : Option Int
deriving DecidableEq

/-- The mid-network preamble of `_connect_areas`, lines 357-359: only run
when more than one mid exists. -/
def midNetworkPhase (W H : Int) (g : Grid) (mids : List Zone) (cw ms : Int)
    (r : Rng) : Grid × Rng × Edges :=
  if 1 < mids.length then connectMidNetwork W H g mids cw ms r else (g, r, [])

/-- The `num_lanes` dispatch of `_connect_areas`, lines 363-433. -/
def connectDispatch (W H numLanes : Int) (tq ctq : Option Zone)
    (sites mids : List Zone) (cw ms : Int) (st : Grid × Rng × Edges) :
    Grid × Rng × Edges :=
  if numLanes = 2 then
    match tq, ctq with
    | some t, some ct => connect2Lane W H t ct sites cw ms st
    | _, _ => st
  else if numLanes = 3 then
    connect3Lane W H tq ctq sites mids cw ms st
  else if numLanes ≥ 4 then
    connect4Lane W H tq ctq sites mids cw ms st
  else st

/-- `_connect_areas`, lines 338-435.  Returns the grid, the stream, and the
ghost connection list. -/
def connectAreas (W H : Int) (g : Grid) (areas : AreaTable)
    (conn : Connectivity) (sl : SightlineControl) (r : Rng) : Grid × Rng × Edges :=
  let style := conn.style.getD "3-lane"
  let corridorWidth := conn.max_chokepoint_width.getD 2
  let maxSegment := if sl.enabled then sl.max_consecutive_open.getD 8 else 999
  let tq := getArea areas "T_spawn"
  let ctq := getArea areas "CT_spawn"
  let sites := areas.filterMap (fun p => if strStarts p.1 "site_" then some p.2 else none)
  let mids := areas.filterMap (fun p => if strStarts p.1 "mid" then some p.2 else none)
  connectDispatch W H (parseNumLanes style) tq ctq sites mids corridorWidth maxSegment
    (midNetworkPhase W H g mids corridorWidth maxSegment r)

/-- `wall_neighbors` of `_can_place_cover`, line 616: the non-open in-bounds
cells of the 8-neighborhood, in the source's comprehension order. -/
def wallNeighbors (W H : Int) (g : Grid) (x y : Int) : List (Int × Int) :=
  ([-1, 0, 1] : List Int).flatMap (fun dy =>
    ([-1, 0, 1] : List Int).filterMap (fun dx =>
      if (¬(dx = 0 ∧ dy = 0)) ∧ 0 ≤ x + dx ∧ x + dx < W ∧ 0 ≤ y + dy ∧ y + dy < H ∧
          isOpenCell (gridGet g (y + dy) (x + dx)) = false then
        some (x + dx, y + dy)
      else none))

/-- The BFS of `_walls_are_connected`, lines 621-628: FIFO queue, visited
set; `fuel` bounds the pops.  Each cell enters `visited` (hence the queue)
at most once, so `wall.length` pops always drain the queue: the fuel never
runs out before the Python loop ends. -/
def wallsBfs (wall : List (Int × Int)) : Nat → List (Int × Int) → List (Int × Int) →
    List (Int × Int)
  | 0, visited, _ => visited
  | _ + 1, visited, [] => visited
  | fuel + 1, visited, c :: queue =>
      let vq := ([-1, 0, 1] : List Int).foldl (fun vq dy =>
        ([-1, 0, 1] : List Int).foldl (fun (vq : List (Int × Int) × List (Int × Int)) dx =>
          let n := (c.1 + dx, c.2 + dy)
          if (¬(dx = 0 ∧ dy = 0)) ∧ n ∈ wall ∧ n ∉ vq.1 then
            (vq.1 ++ [n], vq.2 ++ [n])
          else vq) vq) (visited, queue)
      wallsBfs wall fuel vq.1 vq.2

/-- `_walls_are_connected`, lines 619-629. -/
def wallsAreConnected (wall : List (Int × Int)) : Bool :=
  match wall with
  | [] => true
  | c :: _ =>
      if wall.length ≤ 1 then true
      else (wallsBfs wall wall.length [c] [c]).length == wall.length

/-- `_can_place_cover`, lines 615-617. -/
def canPlaceCover (W H : Int) (g : Grid) (x y : Int) : Bool :=
  let wn := wallNeighbors W H g x y
  decide (wn.length ≤ 1) || wallsAreConnected wn

/-- Cover parameters (`level_spec["cover_objects"]`). -/
structure CoverObjects where
  enabled : Bool
  density : Option String
deriving DecidableEq

/-- Density to per-cell probability in thousandths, line 600:
low 0.08, medium 0.12, high 0.18, default 0.12. -/
def chanceMilli (density : String) : Int :=
  if density = "low" then 80 else if density = "medium" then 120
  else if density = "high" then 180 else 120

/-- `_place_cover_objects`, lines 598-613: scan rows then columns; each
corridor cell consumes one `random.random()` draw and, on a hit satisfying
the isolation predicate, is retagged `COVER` (later cells see the mutation). -/
def placeCoverObjects (W H : Int) (g : Grid) (cover : CoverObjects) (r : Rng) : Grid × Rng :=
  let density := cover.density.getD "medium"
  (List.range H.toNat).foldl (fun st yy =>
    (List.range W.toNat).foldl (fun (st : Grid × Rng) xx =>
      if gridGet st.1 (yy : Int) (xx : Int) = CellType.CORRIDOR then
        if (randUnit st.2).1 < chanceMilli density ∧
            canPlaceCover W H st.1 (xx : Int) (yy : Int) then
          (setCell st.1 (yy : Int) (xx : Int) CellType.COVER, (randUnit st.2).2)
        else (st.1, (randUnit st.2).2)
      else st) st) (g, r)

/-- The significand of the IEEE-754 double nearest to `1.4`, scaled by
`2^52`: the literal `1.4` of line 596 is the double `c14 / 2^52`
(`= (7·2^52 - 2) / 5 / 2^52`, slightly below `7/5`). -/
def c14 : Nat := 6305039478318694

/-- Fueled base-2 logarithm (index of the top bit); fuel 128 covers every
product the analyzer can feed it. -/
def log2f : Nat → Nat → Nat
  | 0, _ => 0
  | fuel + 1, n => if n ≤ 1 then 0 else log2f fuel (n / 2) + 1

/-- Round `n / 2^k` to the nearest integer, ties to even — the IEEE-754
round-to-nearest-even step that drops the low `k` bits of a product. -/
def rneShift (n k : Nat) : Nat :=
  if 2 ^ (k - 1) < n % 2 ^ k ∨ (n % 2 ^ k = 2 ^ (k - 1) ∧ (n / 2 ^ k) % 2 = 1)
  then n / 2 ^ k + 1 else n / 2 ^ k

/-- `int(m * 1.4)` in IEEE-754 double arithmetic: the exact product
`m * c14 / 2^52` (the integer `m` converts to double exactly for
`m < 2^53`) is rounded to 53 significant bits by round-to-nearest-even and
then truncated toward zero.  With `s` the top-bit index of `m * c14`, a
product of at most 53 bits (`s ≤ 52`) is exact; otherwise the low `s - 52`
bits are rounded away. -/
def int14Mul (m : Nat) : Nat :=
  if log2f 128 (m * c14) ≤ 52 then m * c14 / 2 ^ 52
  else rneShift (m * c14) (log2f 128 (m * c14) - 52) *
    2 ^ (log2f 128 (m * c14) - 52) / 2 ^ 52

/-- The returned sightline statistics, line 596. -/
structure SightlineStats where
  max_horizontal_sightline : Int
  max_vertical_sightline : Int
  estimated_max_diagonal : Int
deriving DecidableEq

/-- `_calculate_sightline_stats`, lines 584-596.  The diagonal estimate
`int(max(max_h, max_v) * 1.4)` is modelled bit-exactly by `int14Mul`
(IEEE-754 double product with the double nearest `1.4`, then truncation);
the run maxima are nonnegative, so `Int.toNat` is faithful. -/
def calcSightlineStats (W H : Int) (g : Grid) : SightlineStats :=
  let maxH := (List.range H.toNat).foldl (fun mh yy =>
    ((List.range W.toNat).foldl (fun (p : Int × Int) xx =>
      if isOpenCell (gridGet g (yy : Int) (xx : Int)) then (p.1 + 1, max p.2 (p.1 + 1))
      else (0, p.2)) (0, mh)).2) 0
  let maxV := (List.range W.toNat).foldl (fun mv xx =>
    ((List.range H.toNat).foldl (fun (p : Int × Int) yy =>
      if isOpenCell (gridGet g (yy : Int) (xx : Int)) then (p.1 + 1, max p.2 (p.1 + 1))
      else (0, p.2)) (0, mv)).2) 0
  { max_horizontal_sightline := maxH, max_vertical_sightline := maxV,
    estimated_max_diagonal := (int14Mul (max maxH maxV).toNat : Int) }

/-- A spawn-zone request. -/
structure SpawnSpec where
  team : String
  size : Option String
  location : Option Location
  position_preference : Option String
  shape : Option String

/-- A bomb-site request. -/
structure SiteSpec where
  id : String
  size : Option String
  location : Option Location
  position_preference : Option String
  shape : Option String

/-- An area request (only `type == "mid"` entries are used). -/
structure AreaSpec where
  type : String
  size : Option String
  location : Option Location
  shape : Option String

/-- The input specification (`level_spec` with its `.get` defaults pushed
into `Option`s resolved at the use sites exactly as the source does). -/
structure LevelSpec where
  spawn_zones : List SpawnSpec
  bomb_sites : List SiteSpec
  areas : List AreaSpec
  connectivity : Connectivity
  sightline_control : SightlineControl
  cover_objects : CoverObjects

/-- The record returned by `generate_from_json`, lines 137-143. -/
structure GenResult where
  grid : Grid
  areas : AreaTable
  width : Int
  height : Int
  sightline_stats : SightlineStats

/-- The spawn-zone loop of `generate_from_json`, lines 49-65. -/
def spawnPhase (W H : Int) (specs : List SpawnSpec) (st : Grid × AreaTable × Rng) :
    Grid × AreaTable × Rng :=
  specs.foldl (fun st sp =>
    let res := createZoneWithSpec W H st.1 sp.team (sizeMapGet (sp.size.getD "medium"))
      sp.location (sp.position_preference.getD "edge")
      (if sp.team = "T" then CellType.SPAWN_T else CellType.SPAWN_CT) sp.shape st.2.2
    (res.2.1,
     (match res.1 with
      | some z => setArea st.2.1 (sp.team ++ "_spawn") z
      | none => st.2.1),
     res.2.2.1)) st

/-- The bomb-site loop, lines 69-85. -/
def sitePhase (W H : Int) (specs : List SiteSpec) (st : Grid × AreaTable × Rng) :
    Grid × AreaTable × Rng :=
  specs.foldl (fun st sp =>
    let res := createZoneWithSpec W H st.1 sp.id (sizeMapGet (sp.size.getD "medium"))
      sp.location (sp.position_preference.getD "any") CellType.BOMBSITE sp.shape st.2.2
    (res.2.1,
     (match res.1 with
      | some z => setArea st.2.1 ("site_" ++ sp.id) z
      | none => st.2.1),
     res.2.2.1)) st

/-- The mid-area loop, lines 89-106; `mid_index` increments only on
success. -/
def midPhase (W H : Int) (specs : List AreaSpec) (st : Grid × AreaTable × Rng × Nat) :
    Grid × AreaTable × Rng × Nat :=
  specs.foldl (fun st ar =>
    if ar.type = "mid" then
      let nm := "mid_" ++ toString st.2.2.2
      let res := createZoneWithSpec W H st.1 nm (sizeMapGet (ar.size.getD "medium"))
        (some (ar.location.getD (Location.dict (some (mkRat 1 2)) (some (mkRat 1 2)))))
        "any" CellType.MID_AREA ar.shape st.2.2.1
      (res.2.1,
       (match res.1 with
        | some z => setArea st.2.1 nm z
        | none => st.2.1),
       res.2.2.1,
       (match res.1 with
        | some _ => st.2.2.2 + 1
        | none => st.2.2.2))
    else st) st

/-- `generate_from_json`, lines 36-143: reset the grid and zone table, place
spawns, sites, and mids, connect the areas, place cover if enabled, compute
the sightline statistics, and return the result record. -/
def generateFromJson (W H : Int) (spec : LevelSpec) (r : Rng) : GenResult :=
  let st1 := spawnPhase W H spec.spawn_zones (initialGrid W H, [], r)
  let st2 := sitePhase W H spec.bomb_sites st1
  let st3 := midPhase W H spec.areas (st2.1, st2.2.1, st2.2.2, 0)
  let areas := st3.2.1
  let con := connectAreas W H st3.1 areas spec.connectivity spec.sightline_control st3.2.2.1
  let cov := if spec.cover_objects.enabled then
      placeCoverObjects W H con.1 spec.cover_objects con.2.1
    else (con.1, con.2.1)
  { grid := cov.1, areas := areas, width := W, height := H,
    sightline_stats := calcSightlineStats W H cov.1 }

/-- Concrete specification exercising the bounding-box defect: one T spawn,
shape `rectangle`, size `small`, target `(2/3, 1/2)` on a 12×12 grid,
preference `center`. -/
def c1SpawnT : SpawnSpec :=
  { team := "T", size := some "small",
    location := some (Location.dict (some (mkRat 2 3)) (some (mkRat 1 2))),
    position_preference := some "center", shape := some "rectangle" }

def c1Spec : LevelSpec :=
  { spawn_zones := [c1SpawnT],
    bomb_sites := [], areas := [],
    connectivity := { style := none, max_chokepoint_width := none },
    sightline_control := { enabled := false, max_consecutive_open := none },
    cover_objects := { enabled := false, density := none } }

/-- Stream for `c1Spec`: size jitter 0; offsets 0,0; placement check draws
orientation `horizontal`, extension 1 (a 5×3 rectangle, in bounds); the
placement draw then re-randomizes to orientation `horizontal`, extension 3
(a 7×3 rectangle reaching x = 12, outside the 12-wide grid). -/
def c1Stream : Rng := [0, 0, 0, 0, 1, 0, 3]

/-- Concrete specification exercising the overlap defect: a T spawn square
at anchor (8,8), then a CT spawn `rectangle` at anchor (8,3) whose
collision check draws a flat 5×3 rectangle (clearing the square) but whose
placement draws a tall 3×7 rectangle overlapping — and overwriting — the
square. -/
def c2SpawnT : SpawnSpec :=
  { team := "T", size := some "small",
    location := some (Location.dict (some (mkRat 1 2)) (some (mkRat 1 2))),
    position_preference := some "center", shape := some "square" }

def c2SpawnCT : SpawnSpec :=
  { team := "CT", size := some "small",
    location := some (Location.dict (some (mkRat 1 2)) (some (mkRat 1 4))),
    position_preference := some "center", shape := some "rectangle" }

def c2Spec : LevelSpec :=
  { spawn_zones := [c2SpawnT, c2SpawnCT],
    bomb_sites := [], areas := [],
    connectivity := { style := none, max_chokepoint_width := none },
    sightline_control := { enabled := false, max_consecutive_open := none },
    cover_objects := { enabled := false, density := none } }

/-- Stream for `c2Spec` (draw order: T size jitter, T offsets; CT size
jitter, CT offsets, CT check orientation+extension, CT place
orientation+extension). -/
def c2Stream : Rng := [0, 0, 0, 0, 0, 0, 0, 1, 1, 3]

/-- Stream for the sightline counterexample: detour-amount jitter 0 (so the
detour amount is 2), direction "up", then 20 iterations of (segment-length
jitter −2 → zero-length advance; detour jitter 0; no direction flip).
Starting at the row `H - 2` the clamped detour target equals the current
row, so the bounded walk makes no progress at all in 20 iterations, and the
finishing direct run then draws one straight corridor of the full remaining
length. -/
def c3Stream : Rng := [0, 0] ++ (List.replicate 20 ([-2, 0, 0] : List Int)).flatten

/-- A minimal placed zone for connector tests (ghost cells empty; the
connector only reads the bounding box). -/
def zoneAt (nm : String) (ct : CellType) (x y : Int) : Zone :=
  { x := x, y := y, w := 3, h := 3, name := nm, type := ct, shape := "square", cells := [] }

/-- Zone table with a T spawn and one site but no CT spawn. -/
def c7TableNoCT : AreaTable :=
  [("T_spawn", zoneAt "T" CellType.SPAWN_T 2 2),
   ("site_A", zoneAt "A" CellType.BOMBSITE 12 12)]

/-- Default connectivity (`{}` in the JSON). -/
def c7Conn : Connectivity := { style := none, max_chokepoint_width := none }

/-- Sightline control disabled. -/
def c7Sl : SightlineControl := { enabled := false, max_consecutive_open := none }

/-- Zone table with both spawns and one site (for the connector theorems). -/
def c7TableBoth : AreaTable :=
  [("T_spawn", zoneAt "T" CellType.SPAWN_T 2 2),
   ("CT_spawn", zoneAt "CT" CellType.SPAWN_CT 15 15),
   ("site_A", zoneAt "A" CellType.BOMBSITE 12 4)]

/-- A 1×4 grid whose single row is all corridor: the analyzer reports
`maxH = 4`, `maxV = 1`. -/
def c8Grid : Grid := [List.replicate 4 CellType.CORRIDOR]

/-- Specification for the diagonal-estimate counterexample: a single
centred `square` T spawn on a 12×12 grid.  Under the all-zero stream the
size jitter is 0 (size 4) and the first placement attempt succeeds at
anchor (4,4), so the output grid holds exactly one 4×4 block of open
spawn cells: the analyzer reports `maxH = maxV = 4`. -/
def c8SpawnT : SpawnSpec :=
  { team := "T", size := some "small",
    location := some (Location.dict (some (mkRat 1 2)) (some (mkRat 1 2))),
    position_preference := some "center", shape := some "square" }

def c8Spec : LevelSpec :=
  { spawn_zones := [c8SpawnT],
    bomb_sites := [], areas := [],
    connectivity := { style := none, max_chokepoint_width := none },
    sightline_control := { enabled := false, max_consecutive_open := none },
    cover_objects := { enabled := false, density := none } }

/-- The frame property of the corridor router's writes: every cell is
either untouched or was `EMPTY` and is now `CORRIDOR`. -/
def OnlyStamps (g g' : Grid) : Prop :=
  ∀ y x : Int, gridGet g' y x = gridGet g y x ∨
    (gridGet g y x = CellType.EMPTY ∧ gridGet g' y x = CellType.CORRIDOR)

/-- The cell tags that the generator ever writes (plus `EMPTY`):
`ROOM`, `CHOKEPOINT` and `CONNECTOR` are absent. -/
def allowedTags : List CellType :=
  [CellType.EMPTY, CellType.CORRIDOR, CellType.SPAWN_T, CellType.SPAWN_CT,
   CellType.BOMBSITE, CellType.MID_AREA, CellType.COVER]

/-- Every cell of the grid carries one of the tags the generator writes. -/
def GoodGrid (g : Grid) : Prop := ∀ y x : Int, gridGet g y x ∈ allowedTags

/-- The connector phases only append to the ghost edge list. -/
def EdgesExtend (st st' : Grid × Rng × Edges) : Prop :=
  ∃ tail, st'.2.2 = st.2.2 ++ tail


/-! ### Basic grid lemmas -/

theorem getD_set {α : Type} (l : List α) (i j : Nat) (a d : α) :
    (l.set i a).getD j d = if i = j ∧ i < l.length then a else l.getD j d := by
  simp only [List.getD_eq_getElem?_getD, List.getElem?_set]
  by_cases hij : i = j
  · subst hij
    by_cases hlen : i < l.length
    · simp [hlen]
    · simp [hlen, List.getElem?_eq_none (show l.length ≤ i by omega)]
  · simp [hij, fun h : i = j ∧ i < l.length => hij h.1]

theorem gridGet_setCell (g : Grid) (y x : Int) (c : CellType) (y' x' : Int) :
    gridGet (setCell g y x c) y' x' = gridGet g y' x' ∨
      (y' = y ∧ x' = x ∧ gridGet (setCell g y x c) y' x' = c) := by
  unfold setCell
  split_ifs with hw
  case neg => exact Or.inl rfl
  by_cases hr : 0 ≤ y' ∧ 0 ≤ x'
  case neg =>
    left
    unfold gridGet
    rw [if_neg hr, if_neg hr]
  unfold gridGet
  rw [if_pos hr, if_pos hr, getD_set]
  by_cases hy : y.toNat = y'.toNat ∧ y.toNat < g.length
  case neg => rw [if_neg hy]; exact Or.inl rfl
  rw [if_pos hy, getD_set]
  by_cases hx : x.toNat = x'.toNat ∧ x.toNat < (g.getD y.toNat []).length
  case neg =>
    rw [if_neg hx]
    left
    have hyy : y'.toNat = y.toNat := hy.1.symm
    rw [hyy]
  rw [if_pos hx]
  exact Or.inr ⟨by omega, by omega, rfl⟩

theorem gridGet_initial (W H : Int) (y x : Int) :
    gridGet (initialGrid W H) y x = CellType.EMPTY := by
  unfold gridGet initialGrid
  by_cases hr : 0 ≤ y ∧ 0 ≤ x
  · simp only [if_pos hr, List.getD_eq_getElem?_getD, List.getElem?_replicate]
    by_cases hy : y.toNat < H.toNat
    · simp only [if_pos hy, Option.getD_some]
      by_cases hx : x.toNat < W.toNat <;> simp [hx]
    · simp [hy]
  · simp [if_neg hr]

/-! ### The router's frame property (`OnlyStamps`) -/

theorem onlyStamps_refl (g : Grid) : OnlyStamps g g := fun _ _ => Or.inl rfl

theorem onlyStamps_trans {g g' g'' : Grid} (h1 : OnlyStamps g g') (h2 : OnlyStamps g' g'') :
    OnlyStamps g g'' := by
  intro y x
  rcases h2 y x with h2e | ⟨h2a, h2b⟩
  · rcases h1 y x with h1e | ⟨h1a, h1b⟩
    · exact Or.inl (h2e.trans h1e)
    · exact Or.inr ⟨h1a, h2e.trans h1b⟩
  · rcases h1 y x with h1e | ⟨h1a, h1b⟩
    · exact Or.inr ⟨h1e ▸ h2a, h2b⟩
    · rw [h1b] at h2a; cases h2a

theorem onlyStamps_stampIfEmpty (W H : Int) (g : Grid) (y x : Int) :
    OnlyStamps g (stampIfEmpty W H g y x) := by
  unfold stampIfEmpty
  split_ifs with h
  · intro y' x'
    rcases gridGet_setCell g y x CellType.CORRIDOR y' x' with he | ⟨hy, hx, hc⟩
    · exact Or.inl he
    · subst hy; subst hx
      exact Or.inr ⟨h.2.2.2.2, hc⟩
  · exact onlyStamps_refl g

theorem onlyStamps_foldl {α : Type} (f : Grid → α → Grid)
    (hf : ∀ g a, OnlyStamps g (f g a)) :
    ∀ (l : List α) (g : Grid), OnlyStamps g (l.foldl f g)
  | [], g => onlyStamps_refl g
  | a :: l, g => onlyStamps_trans (hf g a) (onlyStamps_foldl f hf l (f g a))

theorem onlyStamps_stampColumn (W H : Int) (g : Grid) (xcol ycenter effw : Int) :
    OnlyStamps g (stampColumn W H g xcol ycenter effw) :=
  onlyStamps_foldl _ (fun g _ => onlyStamps_stampIfEmpty W H g _ _) _ g

theorem onlyStamps_stampRow (W H : Int) (g : Grid) (yrow xcenter effw : Int) :
    OnlyStamps g (stampRow W H g yrow xcenter effw) :=
  onlyStamps_foldl _ (fun g _ => onlyStamps_stampIfEmpty W H g _ _) _ g

theorem onlyStamps_hAdvance (W H tx cy width : Int) :
    ∀ (fuel : Nat) (cx : Int) (g : Grid), OnlyStamps g (hAdvance W H tx cy width fuel cx g).2
  | 0, _, g => onlyStamps_refl g
  | fuel + 1, cx, g => by
      rw [hAdvance]
      by_cases h : cx = tx
      · rw [if_pos h]; exact onlyStamps_refl g
      · rw [if_neg h]
        exact onlyStamps_trans (onlyStamps_stampColumn W H g _ _ _)
          (onlyStamps_hAdvance W H tx cy width fuel _ _)

theorem onlyStamps_vWalk (W H cxcol width dy : Int) :
    ∀ (fuel : Nat) (cy : Int) (g : Grid), OnlyStamps g (vWalk W H cxcol width dy fuel cy g).2
  | 0, _, g => onlyStamps_refl g
  | fuel + 1, cy, g => by
      rw [vWalk]
      by_cases h : cy = dy
      · rw [if_pos h]; exact onlyStamps_refl g
      · rw [if_neg h]
        exact onlyStamps_trans (onlyStamps_stampRow W H g _ _ _)
          (onlyStamps_vWalk W H cxcol width dy fuel _ _)

theorem onlyStamps_turnsIterH (W H tx width maxSeg detour : Int)
    (cx cy : Int) (gr : Bool) (g : Grid) (r : Rng) :
    OnlyStamps g (turnsIterH W H tx width maxSeg detour cx cy gr g r).2.2.2.1 := by
  simp only [turnsIterH]
  split_ifs <;>
    first
      | exact onlyStamps_trans (onlyStamps_hAdvance W H tx cy width _ _ _)
          (onlyStamps_vWalk W H _ width _ _ _ _)
      | exact onlyStamps_hAdvance W H tx cy width _ _ _

theorem onlyStamps_turnsIterV (W H ty width maxSeg detour : Int)
    (cx cy : Int) (gr : Bool) (g : Grid) (r : Rng) :
    OnlyStamps g (turnsIterV W H ty width maxSeg detour cx cy gr g r).2.2.2.1 := by
  simp only [turnsIterV]
  split_ifs <;>
    first
      | exact onlyStamps_trans (onlyStamps_vWalk W H cx width ty _ _ _)
          (onlyStamps_hAdvance W H _ _ width _ _ _)
      | exact onlyStamps_vWalk W H cx width ty _ _ _

theorem onlyStamps_turnsIter (W H tx ty width maxSeg detour : Int) (isH : Bool)
    (cx cy : Int) (gr : Bool) (g : Grid) (r : Rng) :
    OnlyStamps g (turnsIter W H tx ty width maxSeg detour isH cx cy gr g r).2.2.2.1 := by
  unfold turnsIter
  split_ifs
  · exact onlyStamps_turnsIterH W H tx width maxSeg detour cx cy gr g r
  · exact onlyStamps_turnsIterV W H ty width maxSeg detour cx cy gr g r

theorem onlyStamps_turnsLoop (W H tx ty width maxSeg detour : Int) (isH : Bool) :
    ∀ (fuel : Nat) (cx cy : Int) (gr : Bool) (g : Grid) (r : Rng),
      OnlyStamps g (turnsLoop W H tx ty width maxSeg detour isH fuel cx cy gr g r).2.2.2.1
  | 0, _, _, _, g, _ => onlyStamps_refl g
  | fuel + 1, cx, cy, gr, g, r => by
      rw [turnsLoop]
      by_cases h : (cx - tx).natAbs ≤ 1 ∧ (cy - ty).natAbs ≤ 1
      · rw [if_pos h]; exact onlyStamps_refl g
      · rw [if_neg h]
        exact onlyStamps_trans (onlyStamps_turnsIter W H tx ty width maxSeg detour isH cx cy gr g r)
          (onlyStamps_turnsLoop W H tx ty width maxSeg detour isH fuel _ _ _ _ _)

theorem onlyStamps_drawPathWithTurns (W H : Int) (g : Grid) (x1 y1 x2 y2 width maxSeg : Int)
    (r : Rng) : OnlyStamps g (drawPathWithTurns W H g x1 y1 x2 y2 width maxSeg r).1 := by
  simp only [drawPathWithTurns]
  exact onlyStamps_trans (onlyStamps_turnsLoop W H x2 y2 width maxSeg _ _ 20 x1 y1 _ g _)
    (onlyStamps_trans (onlyStamps_hAdvance W H x2 _ width _ _ _)
      (onlyStamps_vWalk W H _ width y2 _ _ _))

theorem onlyStamps_drawSegment (W H : Int) (g : Grid) (x1 y1 x2 y2 width : Int) :
    OnlyStamps g (drawSegment W H g x1 y1 x2 y2 width) := by
  unfold drawSegment
  exact onlyStamps_trans
    (onlyStamps_foldl _ (fun g _ => onlyStamps_foldl _
      (fun g _ => onlyStamps_stampIfEmpty W H g _ _) _ g) _ g)
    (onlyStamps_foldl _ (fun g _ => onlyStamps_foldl _
      (fun g _ => onlyStamps_stampIfEmpty W H g _ _) _ g) _ _)

theorem onlyStamps_createPathWithCorners (W H : Int) (g : Grid) (a1 a2 : Zone)
    (width maxSegLen : Int) (r : Rng) :
    OnlyStamps g (createPathWithCorners W H g a1 a2 width maxSegLen r).1 := by
  simp only [createPathWithCorners]
  split_ifs with h
  · exact onlyStamps_drawSegment W H g _ _ _ _ _
  · exact onlyStamps_drawPathWithTurns W H g _ _ _ _ _ _ _

/-! ### Tag preservation (`GoodGrid`) -/

theorem foldl_preserve {α β : Type} (P : β → Prop) (f : β → α → β)
    (hf : ∀ b a, P b → P (f b a)) : ∀ (l : List α) (b : β), P b → P (l.foldl f b)
  | [], _, hb => hb
  | a :: l, b, hb => foldl_preserve P f hf l (f b a) (hf b a hb)

theorem goodGrid_of_onlyStamps {g g' : Grid} (h : OnlyStamps g g') (hg : GoodGrid g) :
    GoodGrid g' := by
  intro y x
  rcases h y x with he | ⟨_, hc⟩
  · rw [he]; exact hg y x
  · rw [hc]; decide

theorem goodGrid_setCell {g : Grid} {c : CellType} (hc : c ∈ allowedTags) (hg : GoodGrid g)
    (y x : Int) : GoodGrid (setCell g y x c) := by
  intro y' x'
  rcases gridGet_setCell g y x c y' x' with he | ⟨_, _, hcc⟩
  · rw [he]; exact hg y' x'
  · rw [hcc]; exact hc

theorem goodGrid_initial (W H : Int) : GoodGrid (initialGrid W H) := by
  intro y x
  rw [gridGet_initial]
  decide

theorem goodGrid_placeShapedZone (W H : Int) {g : Grid} (x y size : Int) (shape : String)
    {ct : CellType} (r : Rng) (hc : ct ∈ allowedTags) (hg : GoodGrid g) :
    GoodGrid (placeShapedZone W H g x y size shape ct r).1 := by
  unfold placeShapedZone
  refine foldl_preserve GoodGrid _ (fun g c hgg => ?_) _ g hg
  split_ifs with h
  · exact goodGrid_setCell hc hgg _ _
  · exact hgg

set_option maxHeartbeats 1000000 in
theorem goodGrid_attemptLoop (W H : Int) (name : String) (size tx ty : Int) (shape : String)
    {ct : CellType} (hc : ct ∈ allowedTags) :
    ∀ (remaining attempt : Nat) (g : Grid) (r : Rng), GoodGrid g →
      GoodGrid (attemptLoop W H name size tx ty shape ct remaining attempt g r).2.1
  | 0, _, _, _, hg => hg
  | remaining + 1, attempt, g, r, hg => by
      simp only [attemptLoop]
      split_ifs <;>
        first
          | exact goodGrid_placeShapedZone W H _ _ _ _ _ hc hg
          | exact goodGrid_attemptLoop W H name size tx ty shape hc remaining (attempt + 1) _ _
              (goodGrid_placeShapedZone W H _ _ _ _ _ hc hg)
          | exact goodGrid_attemptLoop W H name size tx ty shape hc remaining (attempt + 1) _ _ hg

theorem goodGrid_createZoneWithSpec (W H : Int) {g : Grid} (name : String) (size0 : Int)
    (location : Option Location) (preference : String) {ct : CellType}
    (specifiedShape : Option String) (r : Rng) (hc : ct ∈ allowedTags) (hg : GoodGrid g) :
    GoodGrid (createZoneWithSpec W H g name size0 location preference ct specifiedShape r).2.1 := by
  simp only [createZoneWithSpec]
  exact goodGrid_attemptLoop W H name _ _ _ _ hc 50 0 g _ hg

theorem goodGrid_spawnPhase (W H : Int) (specs : List SpawnSpec)
    (st : Grid × AreaTable × Rng) (hg : GoodGrid st.1) :
    GoodGrid (spawnPhase W H specs st).1 := by
  unfold spawnPhase
  refine foldl_preserve (fun st => GoodGrid st.1) _ (fun b sp hb => ?_) specs st hg
  exact goodGrid_createZoneWithSpec W H _ _ _ _ _ _
    (by split_ifs <;> decide) hb

theorem goodGrid_sitePhase (W H : Int) (specs : List SiteSpec)
    (st : Grid × AreaTable × Rng) (hg : GoodGrid st.1) :
    GoodGrid (sitePhase W H specs st).1 := by
  unfold sitePhase
  refine foldl_preserve (fun st => GoodGrid st.1) _ (fun b sp hb => ?_) specs st hg
  exact goodGrid_createZoneWithSpec W H _ _ _ _ _ _ (by decide) hb

theorem goodGrid_midPhase (W H : Int) (specs : List AreaSpec)
    (st : Grid × AreaTable × Rng × Nat) (hg : GoodGrid st.1) :
    GoodGrid (midPhase W H specs st).1 := by
  unfold midPhase
  refine foldl_preserve (fun st => GoodGrid st.1) _ (fun b ar hb => ?_) specs st hg
  split_ifs with h
  · exact goodGrid_createZoneWithSpec W H _ _ _ _ _ _ (by decide) hb
  · exact hb

/-! ### The connector only stamps corridor cells -/

theorem onlyStamps_pathStep (W H cw ms : Int) (a b : Zone)
    (st : Grid × Rng × Edges) :
    OnlyStamps st.1 (createPathWithCorners W H st.1 a b cw ms st.2.1).1 :=
  onlyStamps_createPathWithCorners W H st.1 a b cw ms st.2.1

theorem onlyStamps_c3SpawnSites (W H : Int) (tq ctq : Option Zone) (sites : List Zone)
    (cw ms : Int) (st : Grid × Rng × Edges) :
    OnlyStamps st.1 (c3SpawnSites W H tq ctq sites cw ms st).1 := by
  unfold c3SpawnSites
  rcases tq with _ | t
  · exact onlyStamps_refl st.1
  rcases ctq with _ | ct
  · exact onlyStamps_refl st.1
  refine foldl_preserve (fun (s : Grid × Rng × Edges) => OnlyStamps st.1 s.1) _
    (fun b site hb => ?_) sites st (onlyStamps_refl st.1)
  unfold c3PairStep
  exact onlyStamps_trans hb (onlyStamps_trans (onlyStamps_pathStep W H cw ms t site b)
    (onlyStamps_createPathWithCorners W H _ ct site cw ms _))

theorem onlyStamps_spawnClosestMid (W H : Int) (sq : Option Zone) (mids : List Zone)
    (cw ms : Int) (st : Grid × Rng × Edges) :
    OnlyStamps st.1 (spawnClosestMid W H sq mids cw ms st).1 := by
  unfold spawnClosestMid
  rcases sq with _ | t
  · exact onlyStamps_refl st.1
  · rcases h : findClosestArea t mids with _ | c <;> simp only [h]
    · exact onlyStamps_refl st.1
    · exact onlyStamps_pathStep W H cw ms t c st

theorem onlyStamps_siteMidsFold (W H : Int) (sites mids : List Zone) (cw ms : Int)
    (st : Grid × Rng × Edges) :
    OnlyStamps st.1 (siteMidsFold W H sites mids cw ms st).1 := by
  unfold siteMidsFold
  refine foldl_preserve (fun s => OnlyStamps st.1 s.1) _ (fun b site hb => ?_) sites st
    (onlyStamps_refl st.1)
  refine foldl_preserve (fun s => OnlyStamps st.1 s.1) _ (fun b2 mid hb2 => ?_) _ b hb
  exact onlyStamps_trans hb2 (onlyStamps_pathStep W H cw ms site mid b2)

theorem onlyStamps_c3Extra (W H : Int) (sites : List Zone) (cw ms : Int)
    (st : Grid × Rng × Edges) :
    OnlyStamps st.1 (c3Extra W H sites cw ms st).1 := by
  simp only [c3Extra]
  split_ifs with h1 h2
  · rcases sites with _ | ⟨s0, _ | ⟨s1, rest⟩⟩
    · exact onlyStamps_refl st.1
    · exact onlyStamps_refl st.1
    · exact onlyStamps_createPathWithCorners W H st.1 s0 s1 cw ms _
  · exact onlyStamps_refl st.1
  · exact onlyStamps_refl st.1

theorem onlyStamps_connect3Lane (W H : Int) (tq ctq : Option Zone) (sites mids : List Zone)
    (cw ms : Int) (st : Grid × Rng × Edges) :
    OnlyStamps st.1 (connect3Lane W H tq ctq sites mids cw ms st).1 := by
  unfold connect3Lane
  refine onlyStamps_trans (onlyStamps_c3SpawnSites W H tq ctq sites cw ms st)
    (onlyStamps_trans ?_ (onlyStamps_c3Extra W H sites cw ms _))
  split_ifs with h
  · exact onlyStamps_trans (onlyStamps_spawnClosestMid W H tq mids cw ms _)
      (onlyStamps_trans (onlyStamps_spawnClosestMid W H ctq mids cw ms _)
        (onlyStamps_siteMidsFold W H sites mids cw ms _))
  · exact onlyStamps_refl _

theorem onlyStamps_c4SpawnBlock (W H : Int) (sq : Option Zone) (sites mids : List Zone)
    (cw ms : Int) (st : Grid × Rng × Edges) :
    OnlyStamps st.1 (c4SpawnBlock W H sq sites mids cw ms st).1 := by
  unfold c4SpawnBlock
  rcases sq with _ | t
  · exact onlyStamps_refl st.1
  · have h1 : OnlyStamps st.1 ((sites.foldl (fun st site =>
        let p := createPathWithCorners W H st.1 t site cw ms st.2.1
        (p.1, p.2.1, st.2.2 ++ [(t, site)])) st)).1 :=
      foldl_preserve (fun s => OnlyStamps st.1 s.1) _
        (fun b site hb => onlyStamps_trans hb (onlyStamps_pathStep W H cw ms t site b))
        sites st (onlyStamps_refl st.1)
    split_ifs with h
    · refine onlyStamps_trans h1 ?_
      refine foldl_preserve (fun (s : Grid × Rng × Edges) => OnlyStamps _ s.1) _
        (fun b mid hb => ?_) _ _ (onlyStamps_refl _)
      exact onlyStamps_trans hb (onlyStamps_pathStep W H cw ms t mid b)
    · exact h1

theorem onlyStamps_c4SitePairs (W H : Int) (sites : List Zone) (cw ms : Int)
    (st : Grid × Rng × Edges) :
    OnlyStamps st.1 (c4SitePairs W H sites cw ms st).1 := by
  unfold c4SitePairs
  refine foldl_preserve (fun s => OnlyStamps st.1 s.1) _ (fun b si hb => ?_) _ st
    (onlyStamps_refl st.1)
  refine foldl_preserve (fun s => OnlyStamps st.1 s.1) _ (fun b2 sj hb2 => ?_) _ b hb
  split_ifs with h
  · exact onlyStamps_trans hb2 (onlyStamps_pathStep W H cw ms si.2 sj.2 b2)
  · exact hb2

theorem onlyStamps_connect4Lane (W H : Int) (tq ctq : Option Zone) (sites mids : List Zone)
    (cw ms : Int) (st : Grid × Rng × Edges) :
    OnlyStamps st.1 (connect4Lane W H tq ctq sites mids cw ms st).1 := by
  unfold connect4Lane
  refine onlyStamps_trans (onlyStamps_c4SpawnBlock W H tq sites mids cw ms st)
    (onlyStamps_trans (onlyStamps_c4SpawnBlock W H ctq sites mids cw ms _)
      (onlyStamps_trans (onlyStamps_c4SitePairs W H sites cw ms _) ?_))
  split_ifs with h
  · exact onlyStamps_siteMidsFold W H sites mids cw ms _
  · exact onlyStamps_refl _

theorem onlyStamps_connect2Lane (W H : Int) (t ct : Zone) (sites : List Zone)
    (cw ms : Int) (st : Grid × Rng × Edges) :
    OnlyStamps st.1 (connect2Lane W H t ct sites cw ms st).1 := by
  unfold connect2Lane
  refine foldl_preserve (fun s => OnlyStamps st.1 s.1) _ (fun b site hb => ?_) sites st
    (onlyStamps_refl st.1)
  exact onlyStamps_trans hb (onlyStamps_trans (onlyStamps_pathStep W H cw ms t site b)
    (onlyStamps_createPathWithCorners W H _ site ct cw ms _))

theorem onlyStamps_connectMidNetwork (W H : Int) (g : Grid) (mids : List Zone)
    (width maxSeg : Int) (r : Rng) :
    OnlyStamps g (connectMidNetwork W H g mids width maxSeg r).1 := by
  unfold connectMidNetwork
  split_ifs with h
  · exact onlyStamps_refl g
  refine foldl_preserve (fun (s : Grid × Rng × Edges) => OnlyStamps g s.1) _
    (fun b mi hb => ?_) _ _ (onlyStamps_refl g)
  refine foldl_preserve (fun (s : Grid × Rng × Edges) => OnlyStamps g s.1) _
    (fun b2 closeMid hb2 => ?_) _ b hb
  split_ifs with h2
  · exact onlyStamps_trans hb2 (onlyStamps_pathStep W H width maxSeg mi.2 closeMid b2)
  · exact hb2

theorem onlyStamps_midNetworkPhase (W H : Int) (g : Grid) (mids : List Zone)
    (cw ms : Int) (r : Rng) : OnlyStamps g (midNetworkPhase W H g mids cw ms r).1 := by
  unfold midNetworkPhase
  split_ifs with h
  · exact onlyStamps_connectMidNetwork W H g mids cw ms r
  · exact onlyStamps_refl g

theorem onlyStamps_connectDispatch (W H numLanes : Int) (tq ctq : Option Zone)
    (sites mids : List Zone) (cw ms : Int) (st : Grid × Rng × Edges) :
    OnlyStamps st.1 (connectDispatch W H numLanes tq ctq sites mids cw ms st).1 := by
  unfold connectDispatch
  split_ifs with h1 h2 h3
  · rcases tq with _ | t
    · exact onlyStamps_refl st.1
    · rcases ctq with _ | ct
      · exact onlyStamps_refl st.1
      · exact onlyStamps_connect2Lane W H t ct sites cw ms st
  · exact onlyStamps_connect3Lane W H tq ctq sites mids cw ms st
  · exact onlyStamps_connect4Lane W H tq ctq sites mids cw ms st
  · exact onlyStamps_refl st.1

theorem onlyStamps_connectAreas (W H : Int) (g : Grid) (areas : AreaTable)
    (conn : Connectivity) (sl : SightlineControl) (r : Rng) :
    OnlyStamps g (connectAreas W H g areas conn sl r).1 := by
  simp only [connectAreas]
  exact onlyStamps_trans (onlyStamps_midNetworkPhase W H g _ _ _ r)
    (onlyStamps_connectDispatch W H _ _ _ _ _ _ _ _)

theorem goodGrid_placeCoverObjects (W H : Int) {g : Grid} (cover : CoverObjects) (r : Rng)
    (hg : GoodGrid g) : GoodGrid (placeCoverObjects W H g cover r).1 := by
  unfold placeCoverObjects
  refine foldl_preserve (fun (s : Grid × Rng) => GoodGrid s.1) _ (fun b yy hb => ?_) _ (g, r) hg
  refine foldl_preserve (fun (s : Grid × Rng) => GoodGrid s.1) _ (fun b2 xx hb2 => ?_) _ b hb
  split_ifs with h1 h2
  · exact goodGrid_setCell (by decide) hb2 _ _
  · exact hb2
  · exact hb2

theorem goodGrid_generateFromJson (W H : Int) (spec : LevelSpec) (r : Rng) :
    GoodGrid (generateFromJson W H spec r).grid := by
  simp only [generateFromJson]
  set s1 := spawnPhase W H spec.spawn_zones (initialGrid W H, [], r) with hs1
  set s2 := sitePhase W H spec.bomb_sites s1 with hs2
  set s3 := midPhase W H spec.areas (s2.1, s2.2.1, s2.2.2, 0) with hs3
  set con := connectAreas W H s3.1 s3.2.1 spec.connectivity spec.sightline_control
    s3.2.2.1 with hcon
  have h1 : GoodGrid s1.1 := by
    rw [hs1]; exact goodGrid_spawnPhase W H spec.spawn_zones _ (goodGrid_initial W H)
  have h2 : GoodGrid s2.1 := by
    rw [hs2]; exact goodGrid_sitePhase W H spec.bomb_sites s1 h1
  have h3 : GoodGrid s3.1 := by
    rw [hs3]
    exact goodGrid_midPhase W H spec.areas (s2.1, s2.2.1, s2.2.2, 0) h2
  have h4 : GoodGrid con.1 := by
    rw [hcon]
    exact goodGrid_of_onlyStamps
      (onlyStamps_connectAreas W H s3.1 s3.2.1 spec.connectivity spec.sightline_control
        s3.2.2.1) h3
  split_ifs with h5
  · exact goodGrid_placeCoverObjects W H spec.cover_objects _ h4
  · exact h4

/-! ### Bounds of the random draws and of the instrumented loops -/

theorem randint_le (lo hi : Int) (r : Rng) (h : lo ≤ hi) :
    lo ≤ (randint lo hi r).1 ∧ (randint lo hi r).1 ≤ hi := by
  unfold randint
  have h1 : 0 ≤ (r.headD 0 - lo).emod (hi - lo + 1) :=
    Int.emod_nonneg (r.headD 0 - lo) (show hi - lo + 1 ≠ 0 by omega)
  have h2 : (r.headD 0 - lo).emod (hi - lo + 1) < hi - lo + 1 :=
    Int.emod_lt_of_pos (r.headD 0 - lo) (show (0 : Int) < hi - lo + 1 by omega)
  constructor <;> simp only [] <;> omega

set_option maxHeartbeats 1000000 in
theorem attemptLoop_attempts_le (W H : Int) (name : String) (size tx ty : Int)
    (shape : String) (ct : CellType) :
    ∀ (remaining attempt : Nat) (g : Grid) (r : Rng),
      (attemptLoop W H name size tx ty shape ct remaining attempt g r).2.2.2 ≤ remaining
  | 0, _, _, _ => Nat.le_refl 0
  | remaining + 1, attempt, g, r => by
      simp only [attemptLoop]
      split_ifs <;>
        first
          | exact Nat.succ_le_succ (Nat.zero_le remaining)
          | exact Nat.succ_le_succ (attemptLoop_attempts_le W H name size tx ty shape ct
              remaining (attempt + 1) _ _)

theorem turnsLoop_iters_le (W H tx ty width maxSeg detour : Int) (isH : Bool) :
    ∀ (fuel : Nat) (cx cy : Int) (gr : Bool) (g : Grid) (r : Rng),
      (turnsLoop W H tx ty width maxSeg detour isH fuel cx cy gr g r).2.2.2.2.2 ≤ fuel
  | 0, _, _, _, _, _ => Nat.le_refl 0
  | fuel + 1, cx, cy, gr, g, r => by
      rw [turnsLoop]
      by_cases h : (cx - tx).natAbs ≤ 1 ∧ (cy - ty).natAbs ≤ 1
      · rw [if_pos h]; exact Nat.zero_le _
      · rw [if_neg h]
        exact Nat.succ_le_succ (turnsLoop_iters_le W H tx ty width maxSeg detour isH fuel _ _ _ _ _)

theorem hAdvance_reach (W H tx cy width : Int) :
    ∀ (fuel : Nat) (cx : Int) (g : Grid), (tx - cx).natAbs ≤ fuel →
      (hAdvance W H tx cy width fuel cx g).1 = tx
  | 0, cx, g, h => by
      simp only [hAdvance]
      omega
  | fuel + 1, cx, g, h => by
      rw [hAdvance]
      by_cases hcx : cx = tx
      · rw [if_pos hcx]; exact hcx
      · rw [if_neg hcx]
        by_cases hlt : cx < tx
        · simp only [if_pos hlt]
          exact hAdvance_reach W H tx cy width fuel _ _ (by omega)
        · simp only [if_neg hlt]
          exact hAdvance_reach W H tx cy width fuel _ _ (by omega)

theorem vWalk_reach (W H cxcol width dy : Int) :
    ∀ (fuel : Nat) (cy : Int) (g : Grid), (dy - cy).natAbs ≤ fuel →
      (vWalk W H cxcol width dy fuel cy g).1 = dy
  | 0, cy, g, h => by
      simp only [vWalk]
      omega
  | fuel + 1, cy, g, h => by
      rw [vWalk]
      by_cases hcy : cy = dy
      · rw [if_pos hcy]; exact hcy
      · rw [if_neg hcy]
        by_cases hlt : cy < dy
        · simp only [if_pos hlt]
          exact vWalk_reach W H cxcol width dy fuel _ _ (by omega)
        · simp only [if_neg hlt]
          exact vWalk_reach W H cxcol width dy fuel _ _ (by omega)

theorem hAdvance_move_le (W H tx cy width : Int) :
    ∀ (fuel : Nat) (cx : Int) (g : Grid),
      ((hAdvance W H tx cy width fuel cx g).1 - cx).natAbs ≤ fuel
  | 0, cx, g => by simp [hAdvance]
  | fuel + 1, cx, g => by
      rw [hAdvance]
      by_cases hcx : cx = tx
      · rw [if_pos hcx]; simp
      · rw [if_neg hcx]
        by_cases hlt : cx < tx
        · simp only [if_pos hlt]
          have h2 := hAdvance_move_le W H tx cy width fuel (cx + 1)
            (stampColumn W H g (cx + 1) cy (getSafeWidth W H g (cx + 1) cy width true))
          omega
        · simp only [if_neg hlt]
          have h2 := hAdvance_move_le W H tx cy width fuel (cx + -1)
            (stampColumn W H g (cx + -1) cy (getSafeWidth W H g (cx + -1) cy width true))
          omega

theorem turnsIterH_move_le (W H tx width maxSeg detour : Int) (cx cy : Int) (gr : Bool)
    (g : Grid) (r : Rng) :
    ((turnsIterH W H tx width maxSeg detour cx cy gr g r).1 - cx).natAbs ≤ (maxSeg + 2).toNat := by
  have hsl := randint_le (-2) 2 r (by omega)
  have hmv := hAdvance_move_le W H tx cy width
    (min (maxSeg + (randint (-2) 2 r).1) ((tx - cx).natAbs : Int)).toNat cx g
  have hmin : (min (maxSeg + (randint (-2) 2 r).1) ((tx - cx).natAbs : Int)).toNat ≤
      (maxSeg + 2).toNat := by
    have := min_le_left (maxSeg + (randint (-2) 2 r).1) ((tx - cx).natAbs : Int)
    omega
  simp only [turnsIterH]
  split_ifs <;> exact le_trans hmv hmin

theorem vWalk_move_le (W H cxcol width dy : Int) :
    ∀ (fuel : Nat) (cy : Int) (g : Grid),
      ((vWalk W H cxcol width dy fuel cy g).1 - cy).natAbs ≤ fuel
  | 0, cy, g => by simp [vWalk]
  | fuel + 1, cy, g => by
      rw [vWalk]
      by_cases hcy : cy = dy
      · rw [if_pos hcy]; simp
      · rw [if_neg hcy]
        by_cases hlt : cy < dy
        · simp only [if_pos hlt]
          have h2 := vWalk_move_le W H cxcol width dy fuel (cy + 1)
            (stampRow W H g (cy + 1) cxcol (getSafeWidth W H g cxcol (cy + 1) width false))
          omega
        · simp only [if_neg hlt]
          have h2 := vWalk_move_le W H cxcol width dy fuel (cy + -1)
            (stampRow W H g (cy + -1) cxcol (getSafeWidth W H g cxcol (cy + -1) width false))
          omega

theorem turnsIterV_move_le (W H ty width maxSeg detour : Int) (cx cy : Int) (gr : Bool)
    (g : Grid) (r : Rng) :
    ((turnsIterV W H ty width maxSeg detour cx cy gr g r).2.1 - cy).natAbs ≤
      (maxSeg + 2).toNat := by
  have hsl := randint_le (-2) 2 r (by omega)
  have hmv := vWalk_move_le W H cx width ty
    (min (maxSeg + (randint (-2) 2 r).1) ((ty - cy).natAbs : Int)).toNat cy g
  have hmin : (min (maxSeg + (randint (-2) 2 r).1) ((ty - cy).natAbs : Int)).toNat ≤
      (maxSeg + 2).toNat := by
    have := min_le_left (maxSeg + (randint (-2) 2 r).1) ((ty - cy).natAbs : Int)
    omega
  simp only [turnsIterV]
  split_ifs <;> exact le_trans hmv hmin

/-! ### The connector's ghost edge list -/

theorem edgesExtend_refl (st : Grid × Rng × Edges) : EdgesExtend st st :=
  ⟨[], (List.append_nil _).symm⟩

theorem edgesExtend_trans {a b c : Grid × Rng × Edges}
    (h1 : EdgesExtend a b) (h2 : EdgesExtend b c) : EdgesExtend a c := by
  obtain ⟨t1, ht1⟩ := h1
  obtain ⟨t2, ht2⟩ := h2
  exact ⟨t1 ++ t2, by rw [ht2, ht1, List.append_assoc]⟩

theorem mem_of_edgesExtend {e : Zone × Zone} {st st' : Grid × Rng × Edges}
    (h : EdgesExtend st st') (he : e ∈ st.2.2) : e ∈ st'.2.2 := by
  obtain ⟨t, ht⟩ := h
  rw [ht]
  exact List.mem_append_left t he

theorem edgesExtend_foldl {α : Type} (f : (Grid × Rng × Edges) → α → (Grid × Rng × Edges))
    (hf : ∀ b a, EdgesExtend b (f b a)) (l : List α) (st : Grid × Rng × Edges) :
    EdgesExtend st (l.foldl f st) :=
  foldl_preserve (EdgesExtend st) f (fun b a hb => edgesExtend_trans hb (hf b a)) l st
    (edgesExtend_refl st)

theorem edgesExtend_siteMidsFold (W H : Int) (sites mids : List Zone) (cw ms : Int)
    (st : Grid × Rng × Edges) : EdgesExtend st (siteMidsFold W H sites mids cw ms st) := by
  unfold siteMidsFold
  refine edgesExtend_foldl _ (fun b site => ?_) sites st
  exact edgesExtend_foldl _ (fun b2 mid => ⟨[(site, mid)], rfl⟩) _ b

theorem edgesExtend_spawnClosestMid (W H : Int) (sq : Option Zone) (mids : List Zone)
    (cw ms : Int) (st : Grid × Rng × Edges) :
    EdgesExtend st (spawnClosestMid W H sq mids cw ms st) := by
  unfold spawnClosestMid
  rcases sq with _ | t
  · exact edgesExtend_refl st
  · rcases h : findClosestArea t mids with _ | c <;> simp only [h]
    · exact edgesExtend_refl st
    · exact ⟨[(t, c)], rfl⟩

theorem edgesExtend_c3Extra (W H : Int) (sites : List Zone) (cw ms : Int)
    (st : Grid × Rng × Edges) : EdgesExtend st (c3Extra W H sites cw ms st) := by
  simp only [c3Extra]
  split_ifs with h1 h2
  · rcases sites with _ | ⟨s0, _ | ⟨s1, rest⟩⟩
    · exact edgesExtend_refl st
    · exact edgesExtend_refl st
    · exact ⟨[(s0, s1)], rfl⟩
  · exact ⟨[], (List.append_nil _).symm⟩
  · exact edgesExtend_refl st

theorem edgesExtend_c3PairStep (W H cw ms : Int) (t ct : Zone)
    (st : Grid × Rng × Edges) (site : Zone) :
    EdgesExtend st (c3PairStep W H cw ms t ct st site) :=
  ⟨[(t, site), (ct, site)], rfl⟩

theorem mem_c3PairStep (W H cw ms : Int) (t ct : Zone) (st : Grid × Rng × Edges)
    (site : Zone) :
    (t, site) ∈ (c3PairStep W H cw ms t ct st site).2.2 ∧
    (ct, site) ∈ (c3PairStep W H cw ms t ct st site).2.2 := by
  unfold c3PairStep
  simp

theorem mem_c3SpawnSites (W H cw ms : Int) (t ct s : Zone) :
    ∀ (sites : List Zone) (st : Grid × Rng × Edges), s ∈ sites →
      (t, s) ∈ (c3SpawnSites W H (some t) (some ct) sites cw ms st).2.2 ∧
      (ct, s) ∈ (c3SpawnSites W H (some t) (some ct) sites cw ms st).2.2
  | [], _, hs => absurd hs (List.not_mem_nil s)
  | a :: l, st, hs => by
      unfold c3SpawnSites
      rcases List.mem_cons.mp hs with rfl | hl
      · simp only [List.foldl_cons]
        have hstep := edgesExtend_foldl (c3PairStep W H cw ms t ct)
          (edgesExtend_c3PairStep W H cw ms t ct) l (c3PairStep W H cw ms t ct st s)
        exact ⟨mem_of_edgesExtend hstep (mem_c3PairStep W H cw ms t ct st s).1,
          mem_of_edgesExtend hstep (mem_c3PairStep W H cw ms t ct st s).2⟩
      · have := mem_c3SpawnSites W H cw ms t ct s l (c3PairStep W H cw ms t ct st a) hl
        unfold c3SpawnSites at this
        simpa using this

theorem mem_connect3Lane (W H cw ms : Int) (t ct s : Zone) (sites mids : List Zone)
    (st : Grid × Rng × Edges) (hs : s ∈ sites) :
    (t, s) ∈ (connect3Lane W H (some t) (some ct) sites mids cw ms st).2.2 ∧
    (ct, s) ∈ (connect3Lane W H (some t) (some ct) sites mids cw ms st).2.2 := by
  simp only [connect3Lane]
  have h1 := mem_c3SpawnSites W H cw ms t ct s sites st hs
  have e2 : EdgesExtend (c3SpawnSites W H (some t) (some ct) sites cw ms st)
      (if mids ≠ [] then
        siteMidsFold W H sites mids cw ms
          (spawnClosestMid W H (some ct) mids cw ms
            (spawnClosestMid W H (some t) mids cw ms
              (c3SpawnSites W H (some t) (some ct) sites cw ms st)))
      else c3SpawnSites W H (some t) (some ct) sites cw ms st) := by
    split_ifs with h
    · exact edgesExtend_trans (edgesExtend_spawnClosestMid W H (some t) mids cw ms _)
        (edgesExtend_trans (edgesExtend_spawnClosestMid W H (some ct) mids cw ms _)
          (edgesExtend_siteMidsFold W H sites mids cw ms _))
    · exact edgesExtend_refl _
  have e3 := edgesExtend_c3Extra W H sites cw ms
    (if mids ≠ [] then
        siteMidsFold W H sites mids cw ms
          (spawnClosestMid W H (some ct) mids cw ms
            (spawnClosestMid W H (some t) mids cw ms
              (c3SpawnSites W H (some t) (some ct) sites cw ms st)))
      else c3SpawnSites W H (some t) (some ct) sites cw ms st)
  exact ⟨mem_of_edgesExtend (edgesExtend_trans e2 e3) h1.1,
    mem_of_edgesExtend (edgesExtend_trans e2 e3) h1.2⟩

/-! ### Arithmetic of the diagonal estimate -/

theorem log2f_spec : ∀ (fuel n : Nat), 1 ≤ n → n < 2 ^ fuel →
    2 ^ log2f fuel n ≤ n ∧ n < 2 ^ (log2f fuel n + 1)
  | 0, n, h1, h2 => by rw [pow_zero] at h2; omega
  | fuel + 1, n, h1, h2 => by
      rw [log2f]
      by_cases hn : n ≤ 1
      · rw [if_pos hn]
        constructor
        · rw [pow_zero]; omega
        · rw [pow_one]; omega
      · rw [if_neg hn]
        have hfe : (2 : Nat) ^ (fuel + 1) = 2 ^ fuel * 2 := pow_succ 2 fuel
        have hh := log2f_spec fuel (n / 2) (by omega) (by omega)
        have e1 : (2 : Nat) ^ (log2f fuel (n / 2) + 1) = 2 ^ (log2f fuel (n / 2)) * 2 :=
          pow_succ 2 _
        have e2 : (2 : Nat) ^ (log2f fuel (n / 2) + 1 + 1) = 2 ^ (log2f fuel (n / 2) + 1) * 2 :=
          pow_succ 2 _
        omega

/-- Round-to-nearest-even moves the value by at most half an ulp. -/
theorem rneShift_bounds (n k : Nat) (hk : 1 ≤ k) :
    n ≤ rneShift n k * 2 ^ k + 2 ^ (k - 1) ∧
      rneShift n k * 2 ^ k ≤ n + 2 ^ (k - 1) := by
  have e : (2 : Nat) ^ k = 2 ^ (k - 1) * 2 := by
    rw [← pow_succ]
    congr 1
    omega
  have hdm : n / 2 ^ k * 2 ^ k + n % 2 ^ k = n := Nat.div_add_mod' n (2 ^ k)
  have hm : n % 2 ^ k < 2 ^ k := Nat.mod_lt _ (by positivity)
  rw [rneShift]
  split_ifs with hco
  · rw [Nat.add_mul, Nat.one_mul]
    rcases hco with h | h
    · omega
    · omega
  · have hle : n % 2 ^ k ≤ 2 ^ (k - 1) := by
      rcases Nat.lt_or_ge (2 ^ (k - 1)) (n % 2 ^ k) with h | h
      · exact absurd (Or.inl h) hco
      · exact h
    omega

/-- The IEEE truncation of `m * 1.4` is `⌊7m/5⌋` or `⌊7m/5⌋ - 1` for every
run length the analyzer can produce: the double nearest `1.4` is below
`7/5` by `0.4 / 2^52`, and the product rounding moves the value by at most
half an ulp, which keeps it inside the unit interval below `7m/5`. -/
theorem int14Mul_le (m : Nat) (hm : m ≤ 2 ^ 48) :
    int14Mul m ≤ 7 * m / 5 ∧ 7 * m / 5 ≤ int14Mul m + 1 := by
  rcases Nat.eq_zero_or_pos m with h0 | hpos
  · subst h0; decide
  · have hc : m * c14 = m * 6305039478318694 := by rw [c14]
    have h48 : (2 : Nat) ^ 48 = 281474976710656 := by norm_num
    have h52 : (2 : Nat) ^ 52 = 4503599627370496 := by norm_num
    have hn1 : 1 ≤ m * c14 := Nat.mul_pos hpos (by norm_num [c14])
    have hn2 : m * c14 < 2 ^ 128 := by
      have : m * c14 ≤ 2 ^ 48 * c14 := Nat.mul_le_mul_right _ hm
      have hb : (2 : Nat) ^ 48 * c14 < 2 ^ 128 := by norm_num [c14]
      omega
    obtain ⟨hlo, hhi⟩ := log2f_spec 128 (m * c14) hn1 hn2
    rw [int14Mul]
    split_ifs with hs52
    · have hup : m * c14 < 2 ^ 53 := by
        have h53 : (2 : Nat) ^ (log2f 128 (m * c14) + 1) ≤ 2 ^ 53 :=
          Nat.pow_le_pow_right (by norm_num) (by omega)
        have : (2 : Nat) ^ 53 = 9007199254740992 := by norm_num
        omega
      have h53 : (2 : Nat) ^ 53 = 9007199254740992 := by norm_num
      rw [h52]
      omega
    · set s := log2f 128 (m * c14) with hs
      have hk : 1 ≤ s - 52 := by omega
      obtain ⟨hrb1, hrb2⟩ := rneShift_bounds (m * c14) (s - 52) hk
      have e3 : (2 : Nat) ^ s = 2 ^ (s - 52 - 1) * 2 ^ 53 := by
        rw [← pow_add]
        congr 1
        omega
      rw [e3] at hlo
      have h53 : (2 : Nat) ^ 53 = 9007199254740992 := by norm_num
      set E := (2 : Nat) ^ (s - 52 - 1) with hE
      have hEm : E < m := by
        have h9 : E * 9007199254740992 ≤ m * 6305039478318694 := by
          rw [← h53, ← hc]; exact hlo
        omega
      set R := rneShift (m * c14) (s - 52) * 2 ^ (s - 52) with hR
      rw [h48] at hm
      rw [h52]
      omega

/-- The `Int`-level reading of `int14Mul_le` against floor division. -/
theorem int14Mul_fdiv_bounds (M : Int) (h0 : 0 ≤ M) (hle : M ≤ 2 ^ 48) :
    (int14Mul M.toNat : Int) ≤ (7 * M).fdiv 5 ∧
      (7 * M).fdiv 5 ≤ (int14Mul M.toNat : Int) + 1 := by
  have hb := int14Mul_le M.toNat (by omega)
  have hf : (7 * M).fdiv 5 = ((7 * M.toNat / 5 : Nat) : Int) := by
    conv_lhs => rw [show M = ((M.toNat : Nat) : Int) from by omega]
    rw [show (7 : Int) * ((M.toNat : Nat) : Int) = ((7 * M.toNat : Nat) : Int) from by
        push_cast; ring,
      show (5 : Int) = ((5 : Nat) : Int) from rfl, ← Int.ofNat_fdiv]
  rw [hf]
  omega

theorem calc_maxH_nonneg (W H : Int) (g : Grid) :
    0 ≤ (calcSightlineStats W H g).max_horizontal_sightline := by
  show (0 : Int) ≤ (List.range H.toNat).foldl (fun mh yy =>
    ((List.range W.toNat).foldl (fun (p : Int × Int) xx =>
      if isOpenCell (gridGet g (yy : Int) (xx : Int)) then (p.1 + 1, max p.2 (p.1 + 1))
      else (0, p.2)) (0, mh)).2) 0
  refine foldl_preserve (fun (m : Int) => 0 ≤ m) _ (fun b yy hb => ?_) _ 0 le_rfl
  have hp : ∀ (p : Int × Int), 0 ≤ p.2 →
      0 ≤ ((List.range W.toNat).foldl (fun (p : Int × Int) xx =>
        if isOpenCell (gridGet g (yy : Int) (xx : Int)) then (p.1 + 1, max p.2 (p.1 + 1))
        else (0, p.2)) p).2 := by
    intro p hp0
    refine foldl_preserve (fun (q : Int × Int) => 0 ≤ q.2) _ (fun q xx hq => ?_) _ p hp0
    split_ifs with h
    · exact le_trans hq (le_max_left _ _)
    · exact hq
  exact hp (0, b) hb

theorem calc_maxV_nonneg (W H : Int) (g : Grid) :
    0 ≤ (calcSightlineStats W H g).max_vertical_sightline := by
  show (0 : Int) ≤ (List.range W.toNat).foldl (fun mv xx =>
    ((List.range H.toNat).foldl (fun (p : Int × Int) yy =>
      if isOpenCell (gridGet g (yy : Int) (xx : Int)) then (p.1 + 1, max p.2 (p.1 + 1))
      else (0, p.2)) (0, mv)).2) 0
  refine foldl_preserve (fun (m : Int) => 0 ≤ m) _ (fun b xx hb => ?_) _ 0 le_rfl
  have hp : ∀ (p : Int × Int), 0 ≤ p.2 →
      0 ≤ ((List.range H.toNat).foldl (fun (p : Int × Int) yy =>
        if isOpenCell (gridGet g (yy : Int) (xx : Int)) then (p.1 + 1, max p.2 (p.1 + 1))
        else (0, p.2)) p).2 := by
    intro p hp0
    refine foldl_preserve (fun (q : Int × Int) => 0 ≤ q.2) _ (fun q yy hq => ?_) _ p hp0
    split_ifs with h
    · exact le_trans hq (le_max_left _ _)
    · exact hq
  exact hp (0, b) hb

/-! ### The claims -/

set_option maxRecDepth 2000 in
/-- Claim C1: every zone placed by the Zone Placer is claimed to satisfy
`x ≥ 0, y ≥ 0, x + w ≤ width, y + h ≤ height`.  The code violates this: on
a 12×12 grid, the `rectangle` placement of `c1Spec` under stream `c1Stream`
returns the zone `(x, y, w, h) = (6, 4, 7, 3)` with `x + w = 13 > 12`,
because `_place_shaped_zone` re-draws the shape cells (extension 3 instead
of the checked 1) and the bounding box is computed over cells lying outside
the grid.  This evaluation exhibits the failing input. -/
theorem c1_zone_bbox_exceeds_grid :
    ((getArea (generateFromJson 12 12 c1Spec c1Stream).areas "T_spawn").map
      (fun z => (z.x, z.y, z.w, z.h))) = some (6, 4, 7, 3) ∧
    (generateFromJson 12 12 c1Spec c1Stream).width = 12 ∧
    ¬ ((6 : Int) + 7 ≤ 12) := by
  refine ⟨by decide, by decide, by decide⟩

set_option maxRecDepth 4000 in
/-- Claim C2: the occupied cells of distinct placed zones, expanded by a
1-cell buffer, are claimed to be disjoint.  The code violates this because
`_can_place_shaped_zone` and `_place_shaped_zone` each call
`_get_shape_cells`, which for `rectangle`/`organic` shapes draws fresh
randomness: the checked cells are not the placed cells.  Under `c2Spec` /
`c2Stream` the CT rectangle is checked as a flat 5×3 block clearing the T
square, then placed as a tall 3×7 block: both zones contain the cell
`(8, 8)` (Chebyshev distance 0), and the grid cell is even overwritten
from `SPAWN_T` to `SPAWN_CT`. -/
theorem c2_zones_overlap :
    ((getArea (generateFromJson 20 20 c2Spec c2Stream).areas "T_spawn").map
      (fun z => z.cells.contains ((8 : Int), (8 : Int)))) = some true ∧
    ((getArea (generateFromJson 20 20 c2Spec c2Stream).areas "CT_spawn").map
      (fun z => z.cells.contains ((8 : Int), (8 : Int)))) = some true ∧
    gridGet (generateFromJson 20 20 c2Spec c2Stream).grid 8 8 = CellType.SPAWN_CT := by
  refine ⟨by decide, by decide, by decide⟩

set_option maxRecDepth 3000 in
/-- Claim C3, counterexample: with sightline control enabled and
`max_consecutive_open = 2`, one single corridor drawn by the router
(`_draw_path_with_turns` on an empty 16×7 grid from (1,5) to (13,5))
produces an analyzer-reported maximum horizontal run of 12, exceeding
`k = 2` by 10 — far beyond any small constant slack, and growing with the
grid size: after the 20 bounded iterations make no progress, the finishing
direct run of lines 539-545 draws an unbounded straight corridor. -/
theorem c3_counterexample :
    (calcSightlineStats 16 7
      (drawPathWithTurns 16 7 (initialGrid 16 7) 1 5 13 5 1 2 c3Stream).1).max_horizontal_sightline
      = 12 ∧ ¬ ((12 : Int) ≤ 2 + 4) := by
  refine ⟨by decide, by decide⟩

/-- Claim C3, amended: what the bounded walk does guarantee is that within
each iteration of the 20-round loop the single straight advance along the
dominant axis — horizontal (`turnsIterH`) or vertical (`turnsIterV`) —
moves (and therefore stamps) at most `max_segment + 2` cells
(`segment_length = max_segment + randint(-2, 2)`, line 502, where
`max_segment` is exactly the enabled `max_consecutive_open` value `k`,
line 341); the finishing run after the loop is not bounded by `k`, as the
counterexample shows. -/
theorem c3_amended_segment_bound :
    (∀ (W H tx width maxSeg detour cx cy : Int) (gr : Bool) (g : Grid) (r : Rng),
      ((turnsIterH W H tx width maxSeg detour cx cy gr g r).1 - cx).natAbs ≤
        (maxSeg + 2).toNat) ∧
    (∀ (W H ty width maxSeg detour cx cy : Int) (gr : Bool) (g : Grid) (r : Rng),
      ((turnsIterV W H ty width maxSeg detour cx cy gr g r).2.1 - cy).natAbs ≤
        (maxSeg + 2).toNat) :=
  ⟨fun W H tx width maxSeg detour cx cy gr g r =>
      turnsIterH_move_le W H tx width maxSeg detour cx cy gr g r,
    fun W H ty width maxSeg detour cx cy gr g r =>
      turnsIterV_move_le W H ty width maxSeg detour cx cy gr g r⟩

/-- Claim C4: a call of the corridor router (`_create_path_with_corners`,
covering both `_draw_segment` and `_draw_path_with_turns`) changes a cell
only if it was `EMPTY`, writing `CORRIDOR` there; every other cell — zone
cells, earlier corridor cells, cover cells — keeps exactly its tag. -/
theorem c4_router_frame :
    ∀ (W H : Int) (g : Grid) (a1 a2 : Zone) (width maxSegLen : Int) (r : Rng) (y x : Int),
      gridGet (createPathWithCorners W H g a1 a2 width maxSegLen r).1 y x = gridGet g y x ∨
      (gridGet g y x = CellType.EMPTY ∧
        gridGet (createPathWithCorners W H g a1 a2 width maxSegLen r).1 y x =
          CellType.CORRIDOR) :=
  fun W H g a1 a2 width maxSegLen r y x =>
    onlyStamps_createPathWithCorners W H g a1 a2 width maxSegLen r y x

/-- Claim C5: the full pipeline is deterministic.  The shared `random`
stream is the only mutable state besides the grid; the embedding threads it
explicitly (a fixed seed fixes the stream), and `generateFromJson` is a
total pure function of the dimensions, the specification and the stream, so
two runs with the same seed produce identical grids and zone tables. -/
theorem c5_deterministic :
    ∀ (W H : Int) (spec : LevelSpec) (r : Rng),
      generateFromJson W H spec r = generateFromJson W H spec r ∧
      (generateFromJson W H spec r).grid = (generateFromJson W H spec r).grid ∧
      (generateFromJson W H spec r).areas = (generateFromJson W H spec r).areas :=
  fun _ _ _ _ => ⟨rfl, rfl, rfl⟩

/-- Claim C6, counterexample: for a path of Manhattan length 10 ∈ (8,15]
and base width 2 the claim demands an effective width of at least 2, but
line 472 computes `max(2 if width == 1 else 1, width + r)`: with the draw
`r = -1` the effective width is 1. -/
theorem c6_counterexample :
    variedWidth 10 2 (-1) = 1 ∧ ¬ (2 ≤ variedWidth 10 2 (-1)) := by
  refine ⟨by decide, by decide⟩

/-- Claim C6, amended: for length in (8,15] the effective width is
`max(2 if base == 1 else 1, base + r)` — i.e. it is forced to at least 2
exactly WHEN the base width is 1 (the converse of the claim), and may drop
to 1 for any other base width. -/
theorem c6_amended : ∀ (len w r : Int), 8 < len → len ≤ 15 →
    variedWidth len w r = max (if w = 1 then 2 else 1) (w + r) := by
  intro len w r h1 h2
  unfold variedWidth
  rw [if_neg (by omega), if_pos (by omega)]

/-- Witness for the amended C6 at length 10, base width 2, draw −1. -/
theorem c6_amended_witness :
    (8 : Int) < 10 ∧ (10 : Int) ≤ 15 ∧
    variedWidth 10 2 (-1) = max (if (2 : Int) = 1 then 2 else 1) (2 + -1) :=
  ⟨by decide, by decide, c6_amended 10 2 (-1) (by decide) (by decide)⟩

/-- Claim C7, counterexample: in a 3-lane topology with CT spawn absent,
the claim says T spawn is still connected to every site.  But lines 373-380
require BOTH spawns: on a table holding a T spawn and one site (and no
mids) the connector creates no connection at all — its ghost edge list is
empty. -/
theorem c7_counterexample :
    getArea c7TableNoCT "T_spawn" = some (zoneAt "T" CellType.SPAWN_T 2 2) ∧
    ("site_A", zoneAt "A" CellType.BOMBSITE 12 12) ∈ c7TableNoCT ∧
    (connectAreas 20 20 (initialGrid 20 20) c7TableNoCT c7Conn c7Sl []).2.2 = [] := by
  refine ⟨by decide, by decide, by decide⟩

/-- Claim C7, amended: the connector never fails (it is a total function);
in a 3-lane topology the spawn-to-site edges are created for every site
when BOTH spawns are present, but a missing CT spawn suppresses the T
spawn's site edges as well (so with no mids and fewer than two sites
nothing is connected at all). -/
theorem c7_amended :
    (∀ (W H : Int) (g : Grid) (areas : AreaTable) (conn : Connectivity)
        (sl : SightlineControl) (r : Rng) (t ct s : Zone) (k : String),
        parseNumLanes (conn.style.getD "3-lane") = 3 →
        getArea areas "T_spawn" = some t →
        getArea areas "CT_spawn" = some ct →
        (k, s) ∈ areas → strStarts k "site_" = true →
        (t, s) ∈ (connectAreas W H g areas conn sl r).2.2 ∧
        (ct, s) ∈ (connectAreas W H g areas conn sl r).2.2) ∧
    (∀ (W H : Int) (g : Grid) (areas : AreaTable) (conn : Connectivity)
        (sl : SightlineControl) (r : Rng),
        parseNumLanes (conn.style.getD "3-lane") = 3 →
        getArea areas "CT_spawn" = none →
        areas.filterMap (fun p => if strStarts p.1 "mid" then some p.2 else none) = [] →
        (areas.filterMap (fun p => if strStarts p.1 "site_" then some p.2 else none)).length < 2 →
        (connectAreas W H g areas conn sl r).2.2 = []) := by
  constructor
  · intro W H g areas conn sl r t ct s k hn ht hct hmem hk
    simp only [connectAreas]
    rw [hn, ht, hct]
    simp only [connectDispatch]
    rw [if_neg (by norm_num)]
    rw [if_pos (by trivial)]
    exact mem_connect3Lane W H (conn.max_chokepoint_width.getD 2) _ t ct s _ _ _
      (List.mem_filterMap.mpr ⟨(k, s), hmem, by simp [hk]⟩)
  · intro W H g areas conn sl r hn hct hmids hlen
    simp only [connectAreas]
    rw [hn, hct, hmids]
    simp only [connectDispatch]
    rw [if_neg (by norm_num)]
    rw [if_pos (by trivial)]
    simp only [connect3Lane]
    rcases ht : getArea areas "T_spawn" with _ | t <;>
      simp only [c3SpawnSites, ne_eq, not_true_eq_false, if_false, c3Extra] <;>
      rw [if_neg (by omega)] <;>
      simp [midNetworkPhase]

/-- Witness for the amended C7 at a concrete three-entry zone table. -/
theorem c7_amended_witness :
    parseNumLanes (c7Conn.style.getD "3-lane") = 3 ∧
    (zoneAt "T" CellType.SPAWN_T 2 2, zoneAt "A" CellType.BOMBSITE 12 4) ∈
      (connectAreas 24 24 (initialGrid 24 24) c7TableBoth c7Conn c7Sl []).2.2 :=
  ⟨by decide,
   (c7_amended.1 24 24 (initialGrid 24 24) c7TableBoth c7Conn c7Sl []
     (zoneAt "T" CellType.SPAWN_T 2 2) (zoneAt "CT" CellType.SPAWN_CT 15 15)
     (zoneAt "A" CellType.BOMBSITE 12 4) "site_A"
     (by decide) (by decide) (by decide) (by decide) (by decide)).1⟩

set_option maxRecDepth 2000 in
/-- Claim C8, counterexample: the estimated diagonal is claimed to be
`round(max(maxH, maxV) * 1.4)` on every generated grid.  The pipeline run
of `c8Spec` on 12×12 with the all-zero stream outputs a grid whose only
open cells are one 4×4 spawn block, so the analyzer reports
`maxH = maxV = 4` and the code computes `int(4 * 1.4) = 5` (IEEE product
`5.6 - ulp`, truncated), while `round(4 * 1.4) = round(5.6) = 6`. -/
theorem c8_counterexample :
    (generateFromJson 12 12 c8Spec []).sightline_stats.max_horizontal_sightline = 4 ∧
    (generateFromJson 12 12 c8Spec []).sightline_stats.max_vertical_sightline = 4 ∧
    (generateFromJson 12 12 c8Spec []).sightline_stats.estimated_max_diagonal = 5 ∧
    round ((4 : ℚ) * (14 / 10)) = 6 ∧ (5 : Int) ≠ 6 := by
  refine ⟨by decide, by decide, by decide, ?_, by decide⟩
  rw [round_eq]
  rw [show (4 : ℚ) * (14 / 10) + 1 / 2 = 61 / 10 by norm_num]
  rw [Int.floor_eq_iff]
  norm_num

/-- Claim C8, amended: the estimated diagonal is the IEEE-754 double
truncation `int(max(maxH, maxV) * 1.4)` (`int14Mul`), not a rounding: for
every run maximum up to `2^48` it lies in `{⌊7·max/5⌋ - 1, ⌊7·max/5⌋}` —
strictly below `round(max * 1.4)` whenever `7·max mod 5 ∈ {3, 4}` — and
the lower value really occurs: `int14Mul 45 = 62` while `⌊7·45/5⌋ = 63`
(the IEEE product `45 * 1.4` is `62.99999999999999`). -/
theorem c8_amended :
    (∀ (W H : Int) (g : Grid),
        (calcSightlineStats W H g).estimated_max_diagonal =
          (int14Mul (max (calcSightlineStats W H g).max_horizontal_sightline
            (calcSightlineStats W H g).max_vertical_sightline).toNat : Int)) ∧
    (∀ (W H : Int) (g : Grid),
        max (calcSightlineStats W H g).max_horizontal_sightline
          (calcSightlineStats W H g).max_vertical_sightline ≤ 2 ^ 48 →
        (calcSightlineStats W H g).estimated_max_diagonal ≤
            (7 * max (calcSightlineStats W H g).max_horizontal_sightline
              (calcSightlineStats W H g).max_vertical_sightline).fdiv 5 ∧
          (7 * max (calcSightlineStats W H g).max_horizontal_sightline
              (calcSightlineStats W H g).max_vertical_sightline).fdiv 5 ≤
            (calcSightlineStats W H g).estimated_max_diagonal + 1) ∧
    int14Mul 45 = 62 ∧ 7 * 45 / 5 = 63 := by
  refine ⟨fun W H g => rfl, fun W H g hle => ?_, by decide, by norm_num⟩
  have h0 : (0 : Int) ≤ max (calcSightlineStats W H g).max_horizontal_sightline
      (calcSightlineStats W H g).max_vertical_sightline :=
    le_trans (calc_maxH_nonneg W H g) (le_max_left _ _)
  exact int14Mul_fdiv_bounds _ h0 hle

/-- Witness for the amended C8 at the 1×4 all-corridor grid
(`maxH = 4`, diagonal estimate 5 `≤ ⌊28/5⌋ = 5`). -/
theorem c8_amended_witness :
    max (calcSightlineStats 4 1 c8Grid).max_horizontal_sightline
      (calcSightlineStats 4 1 c8Grid).max_vertical_sightline ≤ 2 ^ 48 ∧
    (calcSightlineStats 4 1 c8Grid).estimated_max_diagonal ≤
      (7 * max (calcSightlineStats 4 1 c8Grid).max_horizontal_sightline
        (calcSightlineStats 4 1 c8Grid).max_vertical_sightline).fdiv 5 :=
  ⟨by decide, (c8_amended.2.1 4 1 c8Grid (by decide)).1⟩

/-- Claim C9: generation terminates with the documented bounds: the placer
performs at most 50 attempts per zone, the router's bounded walk at most 20
iterations, and the inner advances toward a fixed coordinate and the
finishing direct runs terminate exactly at their targets (the whole
embedding is built from total functions, so the pipeline needs no external
cancellation). -/
theorem c9_termination_bounds :
    (∀ (W H : Int) (g : Grid) (name : String) (size0 : Int) (location : Option Location)
        (preference : String) (ct : CellType) (sh : Option String) (r : Rng),
        (createZoneWithSpec W H g name size0 location preference ct sh r).2.2.2 ≤ 50) ∧
    (∀ (W H : Int) (g : Grid) (x1 y1 x2 y2 width maxSeg : Int) (r : Rng),
        (drawPathWithTurns W H g x1 y1 x2 y2 width maxSeg r).2.2 ≤ 20) ∧
    (∀ (W H tx cy width cx : Int) (g : Grid),
        (hAdvance W H tx cy width ((tx - cx).natAbs) cx g).1 = tx) ∧
    (∀ (W H cxcol width dy cy : Int) (g : Grid),
        (vWalk W H cxcol width dy ((dy - cy).natAbs) cy g).1 = dy) := by
  refine ⟨?_, ?_, ?_, ?_⟩
  · intro W H g name size0 location preference ct sh r
    simp only [createZoneWithSpec]
    exact attemptLoop_attempts_le W H name _ _ _ _ ct 50 0 g _
  · intro W H g x1 y1 x2 y2 width maxSeg r
    simp only [drawPathWithTurns]
    exact turnsLoop_iters_le W H x2 y2 width maxSeg _ _ 20 x1 y1 _ g _
  · intro W H tx cy width cx g
    exact hAdvance_reach W H tx cy width _ cx g le_rfl
  · intro W H cxcol width dy cy g
    exact vWalk_reach W H cxcol width dy _ cy g le_rfl

/-- Claim C10: every cell of every generated grid carries one of the seven
tags `EMPTY`, `CORRIDOR`, `SPAWN_T`, `SPAWN_CT`, `BOMBSITE`, `MID_AREA`,
`COVER`; the declared tags `ROOM`, `CHOKEPOINT` and `CONNECTOR` are never
written by any component and never appear in an output grid. -/
theorem c10_output_tags :
    ∀ (W H : Int) (spec : LevelSpec) (r : Rng) (y x : Int),
      gridGet (generateFromJson W H spec r).grid y x ∈ allowedTags ∧
      gridGet (generateFromJson W H spec r).grid y x ≠ CellType.ROOM ∧
      gridGet (generateFromJson W H spec r).grid y x ≠ CellType.CHOKEPOINT ∧
      gridGet (generateFromJson W H spec r).grid y x ≠ CellType.CONNECTOR := by
  intro W H spec r y x
  have h := goodGrid_generateFromJson W H spec r y x
  refine ⟨h, ?_, ?_, ?_⟩ <;> (intro hc; rw [hc] at h; revert h; decide)
